import Mathlib

/-! cards-example (Pebble weather cards): a shallow embedding.

The development embeds the pure and the state-passing parts of

* `gdraw_command_transforms.c` (geometry attraction),
* `weather_app_data.c` (data point store, view model mutators),
* `weather_app_animations.c` (the channels of a page transition, their updates
  and handlers),
* `weather_app.c` (paging: `ask_for_scroll` and the animation plans it builds),

and proves properties of them.  Machine integers are `Int` with explicit
wrapping: `int16_t` values are wrapped with `wrap16` wherever the C code
converts to `int16_t`, 32-bit products are wrapped with `wrap32`.
-/

namespace Cards

/-! ## Machine integers -/

/-- Conversion of a C `int` value to `int16_t` (two's complement wrap). -/
def wrap16 (x : Int) : Int := (x + 32768) % 65536 - 32768

/-- Two's complement wrap of a 32-bit signed result. -/
def wrap32 (x : Int) : Int := (x + 2147483648) % 4294967296 - 2147483648

/-- The values an `int16_t` can hold. -/
def isInt16 (x : Int) : Prop := -32768 ≤ x ∧ x ≤ 32767

/-- The values an `int` / `int32_t` can hold. -/
def isInt32 (x : Int) : Prop := -2147483648 ≤ x ∧ x ≤ 2147483647

instance (x : Int) : Decidable (isInt16 x) := by unfold isInt16; infer_instance
instance (x : Int) : Decidable (isInt32 x) := by unfold isInt32; infer_instance

/-- Pebble SDK constant `ANIMATION_NORMALIZED_MAX` (declared in `pebble.h`, the
`MAX` of the normalized progress range `[0, MAX]`). -/
def ANIMATION_NORMALIZED_MAX : Int := 65535

/-! ## gdraw_command_transforms.c -/

/-- SDK type `GPoint`: two `int16_t` coordinates. -/
structure GPoint where
  x : Int
  y : Int
  deriving DecidableEq, Repr

/-- SDK type `GSize`: two `int16_t` extents. -/
structure GSize where
  w : Int
  h : Int
  deriving DecidableEq, Repr

/-- The macro `#define ABS(a) (((a) > 0) ? (a) : -1 * (a))`, applied to a value
promoted to `int`. -/
def ABS (a : Int) : Int := if a > 0 then a else -1 * a

/-- The local `delta_0` of `prv_int_attract_to`: `(int16_t) ((0 + 1) - i)`. -/
def delta_0 (i : Int) : Int := wrap16 ((0 + 1) - i)

/-- The local `delta_b` of `prv_int_attract_to`: `(int16_t) ((bounds - 1) - i)`. -/
def delta_b (i bounds : Int) : Int := wrap16 ((bounds - 1) - i)

/-- The local `delta` of `prv_int_attract_to`:
`ABS(delta_0) < ABS(delta_b) ? delta_0 : delta_b`. -/
def delta (i bounds : Int) : Int :=
  if ABS (delta_0 i) < ABS (delta_b i bounds) then delta_0 i else delta_b i bounds

/-- The function `prv_int_attract_to`:
`return (int16_t) (i + delta * normalized / ANIMATION_NORMALIZED_MAX);`
The product is a 32-bit signed product (wrapped here; in C an overflowing
product is undefined, and none overflows for a progress in
`[0, ANIMATION_NORMALIZED_MAX]`), the division truncates towards zero. -/
def prv_int_attract_to (i bounds normalized : Int) : Int :=
  wrap16 (i + (wrap32 (delta i bounds * normalized)).tdiv ANIMATION_NORMALIZED_MAX)

/-- The function `gpoint_attract_to_square`: `point.y += 1;` and then both axes
are attracted. -/
def gpoint_attract_to_square (point : GPoint) (size : GSize) (normalized : Int) : GPoint :=
  let point : GPoint := { point with y := wrap16 (point.y + 1) }
  { x := prv_int_attract_to point.x size.w normalized,
    y := prv_int_attract_to point.y size.h normalized }

/-! ## weather_app_resources.h, weather_app_data.h: the data model -/

/-- The enum `WeatherAppIcon` of `weather_app_resources.h`. -/
inductive WeatherAppIcon
  | WEATHER_APP_ICON_GENERIC_WEATHER
  | WEATHER_APP_ICON_HEAVY_RAIN
  | WEATHER_APP_ICON_LIGHT_RAIN
  | WEATHER_APP_ICON_HEAVY_SNOW
  | WEATHER_APP_ICON_LIGHT_SNOW
  | WEATHER_APP_ICON_PARTLY_CLOUDY
  | WEATHER_APP_ICON_SUNNY_DAY
  deriving DecidableEq, Repr

open WeatherAppIcon

/-- The struct `WeatherAppDataPoint` of `weather_app_data.h`. -/
structure WeatherAppDataPoint where
  city : String
  description : String
  icon : WeatherAppIcon
  current : Int
  high : Int
  low : Int
  deriving DecidableEq, Repr

/-- The struct `WeatherDataViewNumbers` of `weather_app_data.h`. -/
structure WeatherDataViewNumbers where
  temperature : Int
  low : Int
  high : Int
  deriving DecidableEq, Repr

/-- The static table `s_data_points` of `weather_app_data.c`. -/
def s_data_points : List WeatherAppDataPoint :=
  [ { city := "PALO ALTO",
      description := "Light Rain.",
      icon := WEATHER_APP_ICON_LIGHT_RAIN,
      current := 68,
      high := 70,
      low := 60 },
    { city := "LOS ANGELES",
      description := "Clear throughout the day.",
      icon := WEATHER_APP_ICON_SUNNY_DAY,
      current := 100,
      high := 100,
      low := 80 },
    { city := "SAN FRANCISCO",
      description := "Rain and Fog.",
      icon := WEATHER_APP_ICON_HEAVY_SNOW,
      current := 60,
      high := 62,
      low := 56 },
    { city := "SAN DIEGO",
      description := "Surfboard :)",
      icon := WEATHER_APP_ICON_GENERIC_WEATHER,
      current := 110,
      high := 120,
      low := 9 } ]

/-- A value of type `WeatherAppDataPoint *`: the null pointer, the address
`&s_data_points[i]` of a slot of the static table, or the address of a record
that lives outside the table (with the record it points to). -/
inductive DataPointRef
  | null
  | table (i : Nat)
  | other (addr : Nat) (pointee : WeatherAppDataPoint)
  deriving DecidableEq, Repr

/-- Dereferencing a `WeatherAppDataPoint *`; `none` where the C program has no
defined behaviour (null pointer, slot outside the array). -/
def DataPointRef.deref : DataPointRef → Option WeatherAppDataPoint
  | .null => none
  | .table i => s_data_points[i]?
  | .other _ pointee => some pointee

/-! ## weather_app_data.c: the data point store -/

/-- The function `weather_app_num_data_points`: `ARRAY_LENGTH(s_data_points)`. -/
def weather_app_num_data_points : Int := s_data_points.length

/-- The function `weather_app_data_point_at`. -/
def weather_app_data_point_at (idx : Int) : DataPointRef :=
  if idx < 0 ∨ idx > weather_app_num_data_points - 1 then
    DataPointRef.null
  else
    DataPointRef.table idx.toNat

/-- The function `weather_app_index_of_data_point`: the first `i` of
`0, 1, ..., weather_app_num_data_points() - 1` with `dp == weather_app_data_point_at(i)`,
and `-1` when the loop finds none. -/
def weather_app_index_of_data_point (dp : DataPointRef) : Int :=
  match (List.range weather_app_num_data_points.toNat).find?
      (fun (i : Nat) => decide (dp = weather_app_data_point_at (i : Int))) with
  | some i => (i : Int)
  | none => -1

/-- The function `weather_app_data_point_delta`; `idx + delta` is an `int` sum
(wrapped here; in C an overflowing sum is undefined). -/
def weather_app_data_point_delta (dp : DataPointRef) (delta : Int) : DataPointRef :=
  let idx := weather_app_index_of_data_point dp
  if idx < 0 then
    DataPointRef.null
  else
    weather_app_data_point_at (wrap32 (idx + delta))

/-! ## Formatted text: the C strings written by `snprintf` -/

/-- The UTF-8 bytes of one character of a string literal (the source files are
UTF-8, so the degree sign of the format strings is the two bytes `0xC2 0xB0`). -/
def utf8EncodeChar (c : Char) : List Nat :=
  let v := c.toNat
  if v ≤ 0x7f then [v]
  else if v ≤ 0x7ff then [0xC0 + v / 64, 0x80 + v % 64]
  else if v ≤ 0xffff then [0xE0 + v / 4096, 0x80 + v / 64 % 64, 0x80 + v % 64]
  else [0xF0 + v / 262144, 0x80 + v / 4096 % 64, 0x80 + v / 64 % 64, 0x80 + v % 64]

/-- The bytes of a string literal, without the terminating NUL. -/
def cstr (s : String) : List Nat := s.toList.flatMap utf8EncodeChar

/-- Decimal digits (ASCII) of a natural number, most significant first, pushed
in front of `acc`; `fuel` bounds the number of digits produced. -/
def decimalAux : Nat → Nat → List Nat → List Nat
  | 0, n, acc => (48 + n % 10) :: acc
  | fuel + 1, n, acc =>
    if n < 10 then (48 + n) :: acc
    else decimalAux fuel (n / 10) ((48 + n % 10) :: acc)

/-- Decimal rendering of a natural number. -/
def decimal (n : Nat) : List Nat := decimalAux n n []

/-- The `%d` conversion of `printf`: an optional minus sign and the decimal
digits of the magnitude. -/
def fmt_d (v : Int) : List Nat :=
  if v < 0 then 45 :: decimal v.natAbs else decimal v.toNat

/-- The C string left in a buffer of `size` bytes by `snprintf(buf, size, ...)`
whose complete output would be `output`: at most `size - 1` bytes are stored
before the terminating NUL. -/
def snprintf (size : Nat) (output : List Nat) : List Nat := output.take (size - 1)

/-! ## weather_app_data.h: the view model -/

/-- SDK type `GColor` (one byte, `argb`). -/
structure GColor where
  argb : Nat
  deriving DecidableEq, Repr

/-- SDK constant `GColorOrange` (`#FF5500`). -/
def GColorOrange : GColor := ⟨0b11110100⟩

/-- SDK constant `GColorPictonBlue` (`#55AAFF`). -/
def GColorPictonBlue : GColor := ⟨0b11011011⟩

/-- The resource ids used by `weather_app_resources.c` (generated by the build). -/
inductive ResourceId
  | RESOURCE_ID_ICON_GENERIC_WEATHER
  | RESOURCE_ID_ICON_HEAVY_RAIN
  | RESOURCE_ID_ICON_LIGHT_RAIN
  | RESOURCE_ID_ICON_HEAVY_SNOW
  | RESOURCE_ID_ICON_LIGHT_SNOW
  | RESOURCE_ID_ICON_PARTLY_CLOUDY
  | RESOURCE_ID_ICON_SUNNY_DAY
  deriving DecidableEq, Repr

open ResourceId

/-- A non-null `GDrawCommandImage *`: an asset allocated on the heap by
`gdraw_command_image_create_with_resource`, identified by the resource it was
loaded from and by the serial number of its allocation. -/
structure GDrawCommandImage where
  resource : ResourceId
  serial : Nat
  deriving DecidableEq, Repr

/-- A non-null function pointer of type `WeatherAppMainWindowViewModelFunc`:
`view_model_changed` of `weather_app.c`, or some other function. The callback
receives the model and is taken not to write to it (`view_model_changed` only
reads it). -/
inductive WeatherAppMainWindowViewModelFunc
  | view_model_changed
  | other (addr : Nat)
  deriving DecidableEq, Repr

/-- The member `bg_color` of the view model. -/
structure BgColor where
  top : GColor
  bottom : GColor
  to_bottom_normalized : Int
  deriving DecidableEq, Repr

/-- The member `temperature` of the view model; `text` is the C string held by
the `char text[8]` buffer. -/
structure Temperature where
  value : Int
  text : List Nat
  deriving DecidableEq, Repr

/-- The member `icon` of the view model; `none` is the null pointer. -/
structure Icon where
  draw_command : Option GDrawCommandImage
  to_square_normalized : Int
  deriving DecidableEq, Repr

/-- The member `pagination` of the view model; `text` is the C string held by
the `char text[8]` buffer. -/
structure Pagination where
  idx : Int
  num : Int
  text : List Nat
  deriving DecidableEq, Repr

/-- The member `highlow` of the view model; `text` is the C string held by the
`char text[20]` buffer. -/
structure HighLow where
  high : Int
  low : Int
  text : List Nat
  deriving DecidableEq, Repr

/-- The struct `WeatherAppMainWindowViewModel`; `none` is a null pointer. -/
structure WeatherAppMainWindowViewModel where
  announce_changed : Option WeatherAppMainWindowViewModelFunc
  bg_color : BgColor
  city : Option String
  temperature : Temperature
  icon : Icon
  pagination : Pagination
  highlow : HighLow
  description : Option String
  deriving DecidableEq, Repr

/-- What a view-model operation does besides writing to the model, in the order
it happens: a call of the registered callback (with the model it is shown), a
call of `free`, a call of `gdraw_command_image_create_with_resource` (with its
result). -/
inductive Event
  | announce_changed (f : WeatherAppMainWindowViewModelFunc) (model : WeatherAppMainWindowViewModel)
  | free (p : Option GDrawCommandImage)
  | gdraw_command_image_create_with_resource (id : ResourceId) (result : Option GDrawCommandImage)
  deriving DecidableEq, Repr

/-- The state a view-model operation works on: the model behind the pointer
`model` and the events so far (oldest first). -/
structure ViewModelState where
  model : WeatherAppMainWindowViewModel
  trace : List Event
  deriving DecidableEq, Repr

/-- The result of `memset(model, 0, sizeof(*model))`. -/
def memset_0 : WeatherAppMainWindowViewModel :=
  { announce_changed := none,
    bg_color := { top := ⟨0⟩, bottom := ⟨0⟩, to_bottom_normalized := 0 },
    city := none,
    temperature := { value := 0, text := [] },
    icon := { draw_command := none, to_square_normalized := 0 },
    pagination := { idx := 0, num := 0, text := [] },
    highlow := { high := 0, low := 0, text := [] },
    description := none }

/-- SDK call `gdraw_command_image_create_with_resource`: allocates an asset for
the resource; the allocation is recorded and numbered by its position in the
trace. -/
def gdraw_command_image_create_with_resource (trace : List Event) (id : ResourceId) :
    Option GDrawCommandImage × List Event :=
  let image : Option GDrawCommandImage := some { resource := id, serial := trace.length }
  (image, trace ++ [Event.gdraw_command_image_create_with_resource id image])

/-! ## weather_app_resources.c -/

/-- The function `weather_app_resources_get_icon`. -/
def weather_app_resources_get_icon (trace : List Event) (icon : WeatherAppIcon) :
    Option GDrawCommandImage × List Event :=
  match icon with
  | WEATHER_APP_ICON_HEAVY_RAIN =>
    gdraw_command_image_create_with_resource trace RESOURCE_ID_ICON_HEAVY_RAIN
  | WEATHER_APP_ICON_LIGHT_RAIN =>
    gdraw_command_image_create_with_resource trace RESOURCE_ID_ICON_LIGHT_RAIN
  | WEATHER_APP_ICON_HEAVY_SNOW =>
    gdraw_command_image_create_with_resource trace RESOURCE_ID_ICON_HEAVY_SNOW
  | WEATHER_APP_ICON_LIGHT_SNOW =>
    gdraw_command_image_create_with_resource trace RESOURCE_ID_ICON_LIGHT_SNOW
  | WEATHER_APP_ICON_PARTLY_CLOUDY =>
    gdraw_command_image_create_with_resource trace RESOURCE_ID_ICON_PARTLY_CLOUDY
  | WEATHER_APP_ICON_SUNNY_DAY =>
    gdraw_command_image_create_with_resource trace RESOURCE_ID_ICON_SUNNY_DAY
  | WEATHER_APP_ICON_GENERIC_WEATHER =>
    gdraw_command_image_create_with_resource trace RESOURCE_ID_ICON_GENERIC_WEATHER

/-! ## weather_app_data.c: the view model mutators -/

/-- The function `weather_app_main_window_view_model_announce_changed`: calls
the model's `announce_changed`, or does nothing if it is null. -/
def weather_app_main_window_view_model_announce_changed (s : ViewModelState) : ViewModelState :=
  match s.model.announce_changed with
  | some f => { s with trace := s.trace ++ [Event.announce_changed f s.model] }
  | none => s

/-- The function `weather_app_view_model_set_highlow`. -/
def weather_app_view_model_set_highlow (s : ViewModelState) (high low : Int) : ViewModelState :=
  { s with model := { s.model with highlow :=
      { high := high,
        low := low,
        text := snprintf 20
          (cstr "HI " ++ fmt_d high ++ cstr "°, LO " ++ fmt_d low ++ cstr "°") } } }

/-- The function `weather_app_view_model_set_temperature`. -/
def weather_app_view_model_set_temperature (s : ViewModelState) (value : Int) : ViewModelState :=
  { s with model := { s.model with temperature :=
      { value := value,
        text := snprintf 8 (fmt_d value ++ cstr "°") } } }

/-- The function `weather_app_view_model_set_icon`. -/
def weather_app_view_model_set_icon (s : ViewModelState) (image : Option GDrawCommandImage) :
    ViewModelState :=
  let s : ViewModelState := { s with trace := s.trace ++ [Event.free s.model.icon.draw_command] }
  let s : ViewModelState := { s with model := { s.model with icon :=
      { s.model.icon with draw_command := image } } }
  weather_app_main_window_view_model_announce_changed s

/-- The function `weather_app_data_point_view_model_numbers`. -/
def weather_app_data_point_view_model_numbers (data_point : DataPointRef) :
    Option WeatherDataViewNumbers := do
  let dp ← data_point.deref
  pure { temperature := dp.current, high := dp.high, low := dp.low }

/-- The function `weather_app_view_model_fill_strings_and_pagination`. -/
def weather_app_view_model_fill_strings_and_pagination (s : ViewModelState)
    (data_point : DataPointRef) : Option ViewModelState := do
  let dp ← data_point.deref
  let idx := wrap16 (1 + weather_app_index_of_data_point data_point)
  let num := wrap16 weather_app_num_data_points
  let s : ViewModelState := { s with model := { s.model with
      city := some dp.city,
      description := some dp.description,
      pagination :=
        { idx := idx,
          num := num,
          text := snprintf 8 (fmt_d idx ++ cstr "/" ++ fmt_d num) } } }
  pure (weather_app_main_window_view_model_announce_changed s)

/-- The function `weather_app_data_point_create_icon`. -/
def weather_app_data_point_create_icon (trace : List Event) (data_point : DataPointRef) :
    Option (Option GDrawCommandImage × List Event) := do
  let dp ← data_point.deref
  pure (weather_app_resources_get_icon trace dp.icon)

/-- The function `weather_view_model_fill_numbers`. -/
def weather_view_model_fill_numbers (s : ViewModelState) (numbers : WeatherDataViewNumbers) :
    ViewModelState :=
  let s := weather_app_view_model_set_temperature s numbers.temperature
  weather_app_view_model_set_highlow s numbers.high numbers.low

/-- The function `weather_app_view_model_fill_colors`. -/
def weather_app_view_model_fill_colors (s : ViewModelState) (color : GColor) : ViewModelState :=
  let s : ViewModelState := { s with model := { s.model with bg_color :=
      { s.model.bg_color with top := color, bottom := color } } }
  weather_app_main_window_view_model_announce_changed s

/-- The function `weather_app_data_point_color`. -/
def weather_app_data_point_color (data_point : DataPointRef) : Option GColor := do
  let dp ← data_point.deref
  pure (if dp.current > 90 then GColorOrange else GColorPictonBlue)

/-- The function `weather_app_view_model_fill_all`. -/
def weather_app_view_model_fill_all (s : ViewModelState) (data_point : DataPointRef) :
    Option ViewModelState := do
  let annouce_changed := s.model.announce_changed
  let s : ViewModelState := { s with model := memset_0 }
  let s : ViewModelState := { s with model := { s.model with announce_changed := annouce_changed } }
  let s ← weather_app_view_model_fill_strings_and_pagination s data_point
  let (icon, trace) ← weather_app_data_point_create_icon s.trace data_point
  let s := weather_app_view_model_set_icon { s with trace := trace } icon
  let s := weather_app_view_model_fill_colors s (← weather_app_data_point_color data_point)
  let s := weather_view_model_fill_numbers s
    (← weather_app_data_point_view_model_numbers data_point)
  pure (weather_app_main_window_view_model_announce_changed s)

/-- The function `weather_app_view_model_deinit`. -/
def weather_app_view_model_deinit (s : ViewModelState) : ViewModelState :=
  weather_app_view_model_set_icon s none

/-- The number of callback invocations recorded in a trace. -/
def count_announce_changed (trace : List Event) : Nat :=
  (trace.filter (fun e => match e with
    | Event.announce_changed _ _ => true
    | _ => false)).length

/-! ## Animations: the plans built by weather_app_animations.c and weather_app.c -/

/-- The layers of `WeatherAppData` (`weather_app_private.h`), by member name. -/
inductive LayerId
  | fake_statusbar
  | pagination_layer
  | city_layer
  | horizontal_ruler_layer
  | temperature_layer
  | highlow_layer
  | description_layer
  | icon_layer
  deriving DecidableEq, Repr

/-- SDK enum `AnimationCurve`. -/
inductive AnimationCurve
  | AnimationCurveLinear
  | AnimationCurveEaseIn
  | AnimationCurveEaseOut
  | AnimationCurveEaseInOut
  deriving DecidableEq, Repr

open AnimationCurve

/-- What a property animation updates: a layer's bounds origin (SDK
`property_animation_create_bounds_origin`, a null `from` or `to` is `none`), or
one of the three implementations of `weather_app_animations.c`, which all have
the view model as their subject. -/
inductive AnimationImplementation
  | bounds_origin (layer : LayerId) (from_value to_value : Option GPoint)
  | s_animated_numbers_implementation (from_value to_value : WeatherDataViewNumbers)
  | s_bg_color_normalized_implementation
  | s_icon_scquare_normalized_implementation
  deriving DecidableEq, Repr

/-- The `.started` handlers the program installs. -/
inductive AnimationStartedHandler
  | bg_colors_animation_started
  deriving DecidableEq, Repr

/-- The `.stopped` handlers the program installs. -/
inductive AnimationStoppedHandler
  | after_scroll_swap_text
  | bg_colors_animation_stopped
  | replace_icon_stop_handler
  deriving DecidableEq, Repr

/-- The `context` pointer given to `animation_set_handlers`. -/
inductive HandlerContext
  | null
  | data_point (dp : DataPointRef)
  | icon (image : Option GDrawCommandImage)
  deriving DecidableEq, Repr

/-- SDK struct `AnimationHandlers` together with the context pointer. -/
structure AnimationHandlers where
  started : Option AnimationStartedHandler
  stopped : Option AnimationStoppedHandler
  context : HandlerContext
  deriving DecidableEq, Repr

/-- An animation without handlers. -/
def no_handlers : AnimationHandlers := { started := none, stopped := none, context := .null }

/-- An SDK `Animation`: a property animation, or a group made by
`animation_spawn_create` (children start together) or `animation_sequence_create`
(children run one after the other). -/
inductive Animation
  | property (implementation : AnimationImplementation) (duration : Nat)
      (curve : AnimationCurve) (reverse : Bool) (handlers : AnimationHandlers)
  | spawn (children : List Animation) (handlers : AnimationHandlers)
  | sequence (children : List Animation) (handlers : AnimationHandlers)

/-- SDK call `property_animation_create` and its siblings: a new property
animation has the default duration (250 ms), the default curve (ease in-out), is
not reversed and has no handlers. -/
def property_animation_create (implementation : AnimationImplementation) : Animation :=
  .property implementation 250 AnimationCurveEaseInOut false no_handlers

/-- SDK call `animation_set_duration` (the program calls it on property
animations only). -/
def animation_set_duration : Animation → Nat → Animation
  | .property impl _ curve reverse handlers, duration =>
    .property impl duration curve reverse handlers
  | a, _ => a

/-- SDK call `animation_set_curve` (the program calls it on property animations
only). -/
def animation_set_curve : Animation → AnimationCurve → Animation
  | .property impl duration _ reverse handlers, curve =>
    .property impl duration curve reverse handlers
  | a, _ => a

/-- SDK call `animation_set_reverse` (the program calls it on property
animations only). -/
def animation_set_reverse : Animation → Bool → Animation
  | .property impl duration curve _ handlers, reverse =>
    .property impl duration curve reverse handlers
  | a, _ => a

/-- SDK call `animation_set_handlers`. -/
def animation_set_handlers : Animation → AnimationHandlers → Animation
  | .property impl duration curve reverse _, handlers =>
    .property impl duration curve reverse handlers
  | .spawn children _, handlers => .spawn children handlers
  | .sequence children _, handlers => .sequence children handlers

/-- SDK call `animation_spawn_create`. -/
def animation_spawn_create (children : List Animation) : Animation :=
  .spawn children no_handlers

/-- SDK call `animation_sequence_create`. -/
def animation_sequence_create (children : List Animation) : Animation :=
  .sequence children no_handlers

mutual
/-- The implementations of the property animations of a plan, left to right. -/
def Animation.implementations : Animation → List AnimationImplementation
  | .property impl _ _ _ _ => [impl]
  | .spawn children _ => implementations_list children
  | .sequence children _ => implementations_list children
/-- The implementations of the property animations of a list of plans. -/
def implementations_list : List Animation → List AnimationImplementation
  | [] => []
  | a :: rest => a.implementations ++ implementations_list rest
end

/-! ## weather_app_animations.c: the channels of a page transition -/

/-- The function `get_animated_numbers`. -/
def get_animated_numbers (model : WeatherAppMainWindowViewModel) : WeatherDataViewNumbers :=
  { temperature := model.temperature.value,
    low := model.highlow.low,
    high := model.highlow.high }

/-- The function `weather_app_create_view_model_animation_numbers`. -/
def weather_app_create_view_model_animation_numbers (view_model : WeatherAppMainWindowViewModel)
    (next_data_point : DataPointRef) : Option Animation := do
  let from_numbers := get_animated_numbers view_model
  let to_numbers ← weather_app_data_point_view_model_numbers next_data_point
  pure (property_animation_create
    (.s_animated_numbers_implementation from_numbers to_numbers))

/-- The function `weather_app_create_view_model_animation_bgcolor`. -/
def weather_app_create_view_model_animation_bgcolor (_view_model : WeatherAppMainWindowViewModel)
    (next_data_point : DataPointRef) : Animation :=
  let bg_animation := property_animation_create .s_bg_color_normalized_implementation
  animation_set_handlers bg_animation
    { started := some .bg_colors_animation_started,
      stopped := some .bg_colors_animation_stopped,
      context := .data_point next_data_point }

/-- The function `weather_app_create_view_model_animation_icon`; the new icon is
allocated here, when the plan is built. -/
def weather_app_create_view_model_animation_icon (trace : List Event)
    (_view_model : WeatherAppMainWindowViewModel) (next_data_point : DataPointRef)
    (duration : Nat) : Option (Animation × List Event) := do
  let icon_animation_to_square :=
    property_animation_create .s_icon_scquare_normalized_implementation
  let icon_animation_to_square := animation_set_duration icon_animation_to_square (duration / 2)
  let icon_animation_to_square := animation_set_curve icon_animation_to_square AnimationCurveEaseIn
  -- animation_clone(icon_animation_to_square)
  let icon_animation_from_square := icon_animation_to_square
  let icon_animation_from_square := animation_set_reverse icon_animation_from_square true
  let (icon, trace) ← weather_app_data_point_create_icon trace next_data_point
  let icon_animation_to_square := animation_set_handlers icon_animation_to_square
    { started := none, stopped := some .replace_icon_stop_handler, context := .icon icon }
  pure (animation_sequence_create [icon_animation_to_square, icon_animation_from_square], trace)

/-! ## weather_app.c: paging -/

/-- The struct `WeatherAppData` of `weather_app_private.h`; its layer members
are host objects, named by `LayerId`. -/
structure WeatherAppData where
  data_point : DataPointRef
  view_model : WeatherAppMainWindowViewModel
  previous_animation : Option Animation

/-- The application state: the `WeatherAppData` of the window and the events so
far. -/
structure AppState where
  data : WeatherAppData
  trace : List Event

/-- The SDK's animation scheduler, as far as `ask_for_scroll` depends on it:
what `animation_unschedule` and `animation_schedule` do, synchronously, to the
view model (the handlers the scheduler runs have the view model as their only
subject). -/
structure AnimationScheduler where
  animation_unschedule : Option Animation → ViewModelState → ViewModelState
  animation_schedule : Animation → ViewModelState → ViewModelState

/-- The function `create_anim_scroll_out`. -/
def create_anim_scroll_out (layer : LayerId) (duration : Nat) (dy : Int) : Animation :=
  let to_origin : GPoint := ⟨0, dy⟩
  let result := property_animation_create (.bounds_origin layer none (some to_origin))
  let result := animation_set_duration result duration
  animation_set_curve result AnimationCurveLinear

/-- The function `create_anim_scroll_in`. -/
def create_anim_scroll_in (layer : LayerId) (duration : Nat) (dy : Int) : Animation :=
  let from_origin : GPoint := ⟨0, dy⟩
  let result := property_animation_create (.bounds_origin layer (some from_origin) (some ⟨0, 0⟩))
  let result := animation_set_duration result duration
  animation_set_curve result AnimationCurveEaseOut

/-- The constant `BACKGROUND_SCROLL_DURATION`. -/
def BACKGROUND_SCROLL_DURATION : Nat := 100 * 2

/-- The constant `SCROLL_DURATION`. -/
def SCROLL_DURATION : Nat := 130 * 2

/-- The constant `SCROLL_DIST_OUT`. -/
def SCROLL_DIST_OUT : Int := 20

/-- The constant `SCROLL_DIST_IN`. -/
def SCROLL_DIST_IN : Int := 8

/-- The enum `ScrollDirection`. -/
inductive ScrollDirection
  | ScrollDirectionDown
  | ScrollDirectionUp
  deriving DecidableEq, Repr

open ScrollDirection

/-- The function `create_outbound_anim`. -/
def create_outbound_anim (_data : WeatherAppData) (direction : ScrollDirection) : Animation :=
  let to_dy : Int := if direction = ScrollDirectionDown then -SCROLL_DIST_OUT else SCROLL_DIST_OUT
  let out_city := create_anim_scroll_out .city_layer SCROLL_DURATION to_dy
  let out_description := create_anim_scroll_out .description_layer SCROLL_DURATION to_dy
  let out_ruler := create_anim_scroll_out .horizontal_ruler_layer SCROLL_DURATION to_dy
  animation_spawn_create [out_city, out_description, out_ruler]

/-- The function `create_inbound_anim`. -/
def create_inbound_anim (_data : WeatherAppData) (direction : ScrollDirection) : Animation :=
  let from_dy : Int := if direction = ScrollDirectionDown then -SCROLL_DIST_IN else SCROLL_DIST_IN
  let in_city := create_anim_scroll_in .city_layer SCROLL_DURATION from_dy
  let in_description := create_anim_scroll_in .description_layer SCROLL_DURATION from_dy
  let in_highlow := create_anim_scroll_in .highlow_layer SCROLL_DURATION from_dy
  let in_ruler := create_anim_scroll_in .horizontal_ruler_layer SCROLL_DURATION from_dy
  animation_spawn_create [in_city, in_description, in_highlow, in_ruler]

/-- The function `animation_for_scroll`. -/
def animation_for_scroll (data : WeatherAppData) (trace : List Event)
    (direction : ScrollDirection) (next_data_point : DataPointRef) :
    Option (Animation × List Event) := do
  let view_model := data.view_model
  let out_text := create_outbound_anim data direction
  let out_text := animation_set_handlers out_text
    { started := none, stopped := some .after_scroll_swap_text,
      context := .data_point next_data_point }
  let in_text := create_inbound_anim data direction
  let bg_animation := weather_app_create_view_model_animation_bgcolor view_model next_data_point
  let bg_animation := animation_set_duration bg_animation BACKGROUND_SCROLL_DURATION
  let bg_animation := animation_set_reverse bg_animation (direction = ScrollDirectionDown)
  let (icon_animations, trace) ← weather_app_create_view_model_animation_icon trace view_model
    next_data_point (BACKGROUND_SCROLL_DURATION * 2)
  let number_animation ← weather_app_create_view_model_animation_numbers view_model next_data_point
  let number_animation := animation_set_duration number_animation (SCROLL_DURATION * 2)
  pure (animation_spawn_create
    [animation_sequence_create [out_text, in_text], bg_animation, icon_animations,
      number_animation], trace)

/-- The function `animation_for_bounce`. -/
def animation_for_bounce (data : WeatherAppData) (direction : ScrollDirection) : Animation :=
  create_inbound_anim data direction

/-- The function `ask_for_scroll`. -/
def ask_for_scroll (scheduler : AnimationScheduler) (s : AppState)
    (direction : ScrollDirection) : Option AppState := do
  let delta : Int := if direction = ScrollDirectionUp then -1 else 1
  let next_data_point := weather_app_data_point_delta s.data.data_point delta
  let (s, scroll_animation) ←
    if next_data_point = DataPointRef.null then
      pure (s, animation_for_bounce s.data direction)
    else do
      let s : AppState := { s with data := { s.data with data_point := next_data_point } }
      let (scroll_animation, trace) ←
        animation_for_scroll s.data s.trace direction next_data_point
      pure ({ s with trace := trace }, scroll_animation)
  let vm := scheduler.animation_unschedule s.data.previous_animation
    ⟨s.data.view_model, s.trace⟩
  let vm := scheduler.animation_schedule scroll_animation vm
  pure { data := { s.data with view_model := vm.model,
                                previous_animation := some scroll_animation },
         trace := vm.trace }

/-! ## The plans of a paging gesture, as the specification composes them -/

/-- An outbound scroll of one layer: from where the layer is to the offset
`(0, dy)`, linear, over `SCROLL_DURATION`. -/
def spec_scroll_out (layer : LayerId) (dy : Int) : Animation :=
  .property (.bounds_origin layer none (some ⟨0, dy⟩)) 260 AnimationCurveLinear false no_handlers

/-- An inbound scroll of one layer: from the offset `(0, dy)` back to the origin,
ease-out, over `SCROLL_DURATION`. -/
def spec_scroll_in (layer : LayerId) (dy : Int) : Animation :=
  .property (.bounds_origin layer (some ⟨0, dy⟩) (some ⟨0, 0⟩)) 260 AnimationCurveEaseOut false
    no_handlers

/-- The inbound scroll group: city, description, high/low and ruler slide in
together, from above (`-8`) when paging down and from below (`8`) when paging
up. -/
def spec_inbound_group (direction : ScrollDirection) : Animation :=
  let dy : Int := match direction with
    | ScrollDirectionDown => -8
    | ScrollDirectionUp => 8
  .spawn [spec_scroll_in .city_layer dy, spec_scroll_in .description_layer dy,
    spec_scroll_in .highlow_layer dy, spec_scroll_in .horizontal_ruler_layer dy] no_handlers

/-- The full page transition towards `next_data_point` (whose record is `dp`),
built on a view model showing `numbers` when the trace is `trace`:
`sequence(spawn(out city, out description, out ruler), inbound group)` spawned
together with the background blend, the two-phase icon morph and the numeric
counter; the outbound group swaps the text when it stops, all handlers have the
target as their context. -/
def spec_page_transition (numbers : WeatherDataViewNumbers) (trace : List Event)
    (direction : ScrollDirection) (next_data_point : DataPointRef) (dp : WeatherAppDataPoint) :
    Animation :=
  let dy : Int := match direction with
    | ScrollDirectionDown => -20
    | ScrollDirectionUp => 20
  let reverse : Bool := match direction with
    | ScrollDirectionDown => true
    | ScrollDirectionUp => false
  .spawn
    [ .sequence
        [ .spawn [spec_scroll_out .city_layer dy, spec_scroll_out .description_layer dy,
            spec_scroll_out .horizontal_ruler_layer dy]
            { started := none, stopped := some .after_scroll_swap_text,
              context := .data_point next_data_point },
          spec_inbound_group direction ] no_handlers,
      .property .s_bg_color_normalized_implementation 200 AnimationCurveEaseInOut reverse
        { started := some .bg_colors_animation_started,
          stopped := some .bg_colors_animation_stopped,
          context := .data_point next_data_point },
      .sequence
        [ .property .s_icon_scquare_normalized_implementation 200 AnimationCurveEaseIn false
            { started := none, stopped := some .replace_icon_stop_handler,
              context := .icon (weather_app_resources_get_icon trace dp.icon).1 },
          .property .s_icon_scquare_normalized_implementation 200 AnimationCurveEaseIn true
            no_handlers ] no_handlers,
      .property
        (.s_animated_numbers_implementation numbers
          { temperature := dp.current, high := dp.high, low := dp.low })
        520 AnimationCurveEaseInOut false no_handlers ] no_handlers

/-- A scheduler that runs no handler inside `animation_unschedule` and
`animation_schedule`. -/
def idle_scheduler : AnimationScheduler :=
  { animation_unschedule := fun _ vm => vm,
    animation_schedule := fun _ vm => vm }

/-! ## weather_app_animations.c: updates and handlers -/

/-- The function `set_animated_numbers`. -/
def set_animated_numbers (s : ViewModelState) (numbers : WeatherDataViewNumbers) :
    ViewModelState :=
  let s := weather_view_model_fill_numbers s numbers
  weather_app_main_window_view_model_announce_changed s

/-- The function `distance_interpolate`:
`return from + ((normalized * (to - from)) / ANIMATION_NORMALIZED_MAX);` with an
`int16_t` result. The product is a 32-bit signed product (wrapped here; in C an
overflowing product is undefined), the division truncates towards zero. -/
def distance_interpolate (normalized from_value to_value : Int) : Int :=
  wrap16 (from_value +
    (wrap32 (normalized * (to_value - from_value))).tdiv ANIMATION_NORMALIZED_MAX)

/-- The function `property_animation_update_animated_numbers`, the update of
`s_animated_numbers_implementation`: `from` and `to` are read from the property
animation, the subject is the view model, the setter is `set_animated_numbers`;
the `uint32_t` progress is converted to the `int32_t` parameter of
`distance_interpolate`. On any other animation the function has no defined
result. -/
def property_animation_update_animated_numbers (s : ViewModelState)
    (property_animation : Animation) (distance_normalized : Int) : Option ViewModelState :=
  match property_animation with
  | .property (.s_animated_numbers_implementation from_value to_value) _ _ _ _ =>
    let current : WeatherDataViewNumbers :=
      { temperature := distance_interpolate (wrap32 distance_normalized)
          from_value.temperature to_value.temperature,
        high := distance_interpolate (wrap32 distance_normalized) from_value.high to_value.high,
        low := distance_interpolate (wrap32 distance_normalized) from_value.low to_value.low }
    some (set_animated_numbers s current)
  | _ => none

/-- The function `update_bg_color_normalized`. -/
def update_bg_color_normalized (s : ViewModelState) (distance_normalized : Int) :
    ViewModelState :=
  let s : ViewModelState := { s with model := { s.model with bg_color :=
      { s.model.bg_color with to_bottom_normalized := wrap32 distance_normalized } } }
  weather_app_main_window_view_model_announce_changed s

/-- SDK call `animation_get_reverse`. -/
def animation_get_reverse : Animation → Bool
  | .property _ _ _ reverse _ => reverse
  | _ => false

/-- The function `bg_colors_animation_started`. -/
def bg_colors_animation_started (s : ViewModelState) (animation : Animation)
    (context : DataPointRef) : Option ViewModelState := do
  let color ← weather_app_data_point_color context
  let s : ViewModelState :=
    if animation_get_reverse animation then
      { s with model := { s.model with bg_color := { s.model.bg_color with top := color } } }
    else
      { s with model := { s.model with bg_color := { s.model.bg_color with bottom := color } } }
  pure (weather_app_main_window_view_model_announce_changed s)

/-- The function `bg_colors_animation_stopped`. -/
def bg_colors_animation_stopped (s : ViewModelState) (_animation : Animation)
    (_finished : Bool) (context : DataPointRef) : Option ViewModelState := do
  let color ← weather_app_data_point_color context
  pure (weather_app_view_model_fill_colors s color)

/-- The function `update_icon_square_normalized`. -/
def update_icon_square_normalized (s : ViewModelState) (distance_normalized : Int) :
    ViewModelState :=
  let s : ViewModelState := { s with model := { s.model with icon :=
      { s.model.icon with to_square_normalized := wrap32 distance_normalized } } }
  weather_app_main_window_view_model_announce_changed s

/-- The function `replace_icon_stop_handler`. -/
def replace_icon_stop_handler (s : ViewModelState) (_animation : Animation)
    (_finished : Bool) (context : Option GDrawCommandImage) : ViewModelState :=
  weather_app_view_model_set_icon s context

/-- What a tick of the scheduler does to the view model: it calls the update of
the animation's implementation with the current progress. The SDK's update of a
bounds-origin animation moves its layer and a group has no update of its own;
neither touches the view model. -/
def animation_update (s : ViewModelState) (animation : Animation) (distance_normalized : Int) :
    Option ViewModelState :=
  match animation with
  | .property (.bounds_origin _ _ _) _ _ _ _ => some s
  | .property .s_bg_color_normalized_implementation _ _ _ _ =>
    some (update_bg_color_normalized s distance_normalized)
  | .property .s_icon_scquare_normalized_implementation _ _ _ _ =>
    some (update_icon_square_normalized s distance_normalized)
  | .property (.s_animated_numbers_implementation _ _) _ _ _ _ =>
    property_animation_update_animated_numbers s animation distance_normalized
  | .spawn _ _ => some s
  | .sequence _ _ => some s

/-! ## weather_app.c: handlers and start-up -/

/-- The function `after_scroll_swap_text`: the `.stopped` handler of the
outbound scroll group; `context` is the next data point. -/
def after_scroll_swap_text (s : ViewModelState) (_animation : Animation) (_finished : Bool)
    (context : DataPointRef) : Option ViewModelState :=
  weather_app_view_model_fill_strings_and_pagination s context

/-- The function `set_data_point`. -/
def set_data_point (s : AppState) (dp : DataPointRef) : Option AppState := do
  let s : AppState := { s with data := { s.data with data_point := dp } }
  let vm ← weather_app_view_model_fill_all ⟨s.data.view_model, s.trace⟩ dp
  pure { data := { s.data with view_model := vm.model }, trace := vm.trace }

/-- The function `init`, up to the creation of the window: the zeroed
`WeatherAppData` is given the first data point. -/
def init : Option AppState :=
  let data : WeatherAppData :=
    { data_point := DataPointRef.null, view_model := memset_0, previous_animation := none }
  let dp := weather_app_data_point_at 0
  set_data_point ⟨data, []⟩ dp

/-- The function `up_click_handler`. -/
def up_click_handler (scheduler : AnimationScheduler) (s : AppState) : Option AppState :=
  ask_for_scroll scheduler s ScrollDirectionUp

/-- The function `down_click_handler`. -/
def down_click_handler (scheduler : AnimationScheduler) (s : AppState) : Option AppState :=
  ask_for_scroll scheduler s ScrollDirectionDown

/-- A finite sequence of page requests, handled one after the other by the click
handlers. -/
def page_requests (scheduler : AnimationScheduler) :
    AppState → List ScrollDirection → Option AppState
  | s, [] => some s
  | s, ScrollDirectionUp :: rest => do
    let s ← up_click_handler scheduler s
    page_requests scheduler s rest
  | s, ScrollDirectionDown :: rest => do
    let s ← down_click_handler scheduler s
    page_requests scheduler s rest

/-! ## Notions used to state the properties -/

/-- One page request on an index, as a step of `-1` (Up) or `+1` (Down) clamped
to `[0, 3]`. -/
def clamped_step (i : Int) (direction : ScrollDirection) : Int :=
  match direction with
  | ScrollDirectionUp => max 0 (min 3 (i - 1))
  | ScrollDirectionDown => max 0 (min 3 (i + 1))

/-- The assets released so far: the non-null arguments of the calls of `free`
recorded in a trace, in order. -/
def released (trace : List Event) : List GDrawCommandImage :=
  trace.filterMap (fun e => match e with
    | Event.free (some image) => some image
    | _ => none)

/-! ## Lemmas on machine integers -/

theorem wrap16_of_isInt16 {x : Int} (h : isInt16 x) : wrap16 x = x := by
  unfold isInt16 at h
  unfold wrap16
  omega

theorem isInt16_wrap16 (x : Int) : isInt16 (wrap16 x) := by
  unfold isInt16 wrap16
  omega

theorem wrap16_add_wrap16 (x y : Int) : wrap16 (x + wrap16 y) = wrap16 (x + y) := by
  have e : wrap16 y = y - ((y + 32768) / 65536) * 65536 := by
    unfold wrap16
    omega
  rw [e]
  unfold wrap16
  have e2 : x + (y - (y + 32768) / 65536 * 65536) + 32768 =
      (x + y + 32768) - (y + 32768) / 65536 * 65536 := by ring
  rw [e2]
  omega

theorem wrap32_of_isInt32 {x : Int} (h : isInt32 x) : wrap32 x = x := by
  unfold isInt32 at h
  unfold wrap32
  omega

theorem ABS_eq_abs (a : Int) : ABS a = |a| := by
  unfold ABS
  split
  · rw [abs_of_pos (by assumption)]
  · rw [abs_of_nonpos (by omega)]
    omega

/-- At full progress the scaled step of an `int16_t` delta is the delta itself:
the 32-bit product does not overflow and the division is exact. -/
theorem scaled_at_max {d : Int} (h : isInt16 d) :
    (wrap32 (d * ANIMATION_NORMALIZED_MAX)).tdiv ANIMATION_NORMALIZED_MAX = d := by
  have h32 : isInt32 (d * ANIMATION_NORMALIZED_MAX) := by
    unfold isInt16 at h
    unfold isInt32 ANIMATION_NORMALIZED_MAX
    omega
  rw [wrap32_of_isInt32 h32]
  exact Int.mul_tdiv_cancel d (by decide)

/-- At progress zero the scaled step is zero. -/
theorem scaled_at_zero (d : Int) :
    (wrap32 (d * 0)).tdiv ANIMATION_NORMALIZED_MAX = 0 := by
  simp [wrap32]

theorem isInt16_delta (i bounds : Int) : isInt16 (delta i bounds) := by
  unfold delta delta_0 delta_b
  split <;> exact isInt16_wrap16 _

theorem prv_int_attract_to_zero {i : Int} (bounds : Int) (h : isInt16 i) :
    prv_int_attract_to i bounds 0 = i := by
  unfold prv_int_attract_to
  rw [scaled_at_zero, Int.add_zero, wrap16_of_isInt16 h]

theorem prv_int_attract_to_max (i bounds : Int) :
    prv_int_attract_to i bounds ANIMATION_NORMALIZED_MAX = wrap16 (i + delta i bounds) := by
  unfold prv_int_attract_to
  rw [scaled_at_max (isInt16_delta i bounds)]

/-! ## Geometry attraction -/

/-- C1, as stated, fails: at progress 0 the point `(5, 4)` comes back as
`(5, 5)`, because `gpoint_attract_to_square` first adds one to `y`. -/
theorem C1_counterexample :
    gpoint_attract_to_square ⟨5, 4⟩ ⟨10, 10⟩ 0 = ⟨5, 5⟩ ∧
      gpoint_attract_to_square ⟨5, 4⟩ ⟨10, 10⟩ 0 ≠ ⟨5, 4⟩ := by
  decide

/-- C1, amended: for every point `p` with `int16_t` coordinates, every size and
progress 0, `gpoint_attract_to_square` returns `x` unchanged and `y` advanced by
one (as an `int16_t`, so it is `p.y + 1` whenever `p.y < 32767`). -/
theorem C1_attract_zero (p : GPoint) (size : GSize) (hx : isInt16 p.x) (hy : isInt16 p.y) :
    gpoint_attract_to_square p size 0 = ⟨p.x, wrap16 (p.y + 1)⟩ ∧
      (p.y < 32767 → (gpoint_attract_to_square p size 0).y = p.y + 1) := by
  have key : gpoint_attract_to_square p size 0 = ⟨p.x, wrap16 (p.y + 1)⟩ := by
    unfold gpoint_attract_to_square
    simp only [prv_int_attract_to_zero size.w hx,
      prv_int_attract_to_zero size.h (isInt16_wrap16 (p.y + 1))]
  refine ⟨key, fun hlt => ?_⟩
  rw [key]
  unfold isInt16 at hy
  exact wrap16_of_isInt16 (by unfold isInt16; omega)

theorem C1_attract_zero_witness :
    gpoint_attract_to_square ⟨5, 4⟩ ⟨10, 10⟩ 0 = ⟨5, wrap16 (4 + 1)⟩ ∧
      ((4 : Int) < 32767 → (gpoint_attract_to_square ⟨5, 4⟩ ⟨10, 10⟩ 0).y = 4 + 1) :=
  C1_attract_zero ⟨5, 4⟩ ⟨10, 10⟩ (by decide) (by decide)

/-- C2, as stated, fails: in an 11-high box the point `(3, 5)` lies strictly
inside, is equidistant on no axis and is nearer to `1` than to `10` in `y`, yet
at full progress it lands on `(1, 10)`. -/
theorem C2_counterexample :
    (1 : Int) < 3 ∧ (3 : Int) < 10 - 1 ∧ (1 : Int) < 5 ∧ (5 : Int) < 11 - 1 ∧
      |(1 : Int) - 3| ≠ |(10 - 1) - 3| ∧ |(1 : Int) - 5| < |(11 - 1) - 5| ∧
      gpoint_attract_to_square ⟨3, 5⟩ ⟨10, 11⟩ ANIMATION_NORMALIZED_MAX = ⟨1, 10⟩ := by
  decide

/-- The attraction of one axis at full progress, for a coordinate above the
lower target and not above the upper one: the nearer of `1` and `bounds - 1`,
the upper one on a tie. -/
theorem prv_int_attract_to_max_inside {i bounds : Int} (hb : isInt16 bounds)
    (h1 : 1 < i) (h2 : i ≤ bounds - 1) :
    prv_int_attract_to i bounds ANIMATION_NORMALIZED_MAX =
      if |1 - i| < |(bounds - 1) - i| then 1 else bounds - 1 := by
  unfold isInt16 at hb
  have h0 : delta_0 i = 1 - i := by
    unfold delta_0
    exact wrap16_of_isInt16 (by unfold isInt16; omega)
  have hB : delta_b i bounds = (bounds - 1) - i := by
    unfold delta_b
    exact wrap16_of_isInt16 (by unfold isInt16; omega)
  rw [prv_int_attract_to_max]
  unfold delta
  rw [h0, hB, ABS_eq_abs, ABS_eq_abs]
  split
  · have e : i + (1 - i) = 1 := by omega
    rw [e]
    decide
  · have e : i + ((bounds - 1) - i) = bounds - 1 := by omega
    rw [e]
    exact wrap16_of_isInt16 (by unfold isInt16; omega)

/-- C2, amended: for every size and every point strictly inside the targets on
both axes, with `p.x` not equidistant from `1` and `w - 1` and the shifted
ordinate `p.y + 1` not equidistant from `1` and `h - 1`, at full progress
`gpoint_attract_to_square` returns the point whose `x` is whichever of `1` and
`w - 1` is nearer to `p.x` and whose `y` is whichever of `1` and `h - 1` is
nearer to `p.y + 1`. -/
theorem C2_attract_max (p : GPoint) (size : GSize) (hw : isInt16 size.w) (hh : isInt16 size.h)
    (hx1 : 1 < p.x) (hx2 : p.x < size.w - 1) (hy1 : 1 < p.y) (hy2 : p.y < size.h - 1)
    (hxt : |1 - p.x| ≠ |(size.w - 1) - p.x|)
    (hyt : |1 - (p.y + 1)| ≠ |(size.h - 1) - (p.y + 1)|) :
    ((gpoint_attract_to_square p size ANIMATION_NORMALIZED_MAX).x = 1 ∧
        |1 - p.x| < |(size.w - 1) - p.x| ∨
      (gpoint_attract_to_square p size ANIMATION_NORMALIZED_MAX).x = size.w - 1 ∧
        |(size.w - 1) - p.x| < |1 - p.x|) ∧
    ((gpoint_attract_to_square p size ANIMATION_NORMALIZED_MAX).y = 1 ∧
        |1 - (p.y + 1)| < |(size.h - 1) - (p.y + 1)| ∨
      (gpoint_attract_to_square p size ANIMATION_NORMALIZED_MAX).y = size.h - 1 ∧
        |(size.h - 1) - (p.y + 1)| < |1 - (p.y + 1)|) := by
  have hys : wrap16 (p.y + 1) = p.y + 1 := by
    unfold isInt16 at hh
    exact wrap16_of_isInt16 (by unfold isInt16; omega)
  have ex : (gpoint_attract_to_square p size ANIMATION_NORMALIZED_MAX).x =
      if |1 - p.x| < |(size.w - 1) - p.x| then 1 else size.w - 1 := by
    unfold gpoint_attract_to_square
    exact prv_int_attract_to_max_inside hw hx1 (le_of_lt hx2)
  have ey : (gpoint_attract_to_square p size ANIMATION_NORMALIZED_MAX).y =
      if |1 - (p.y + 1)| < |(size.h - 1) - (p.y + 1)| then 1 else size.h - 1 := by
    show prv_int_attract_to (wrap16 (p.y + 1)) size.h ANIMATION_NORMALIZED_MAX = _
    rw [hys]
    exact prv_int_attract_to_max_inside hh (by omega) (by omega)
  rw [ex, ey]
  constructor
  · by_cases hlt : |1 - p.x| < |(size.w - 1) - p.x|
    · exact Or.inl ⟨by rw [if_pos hlt], hlt⟩
    · exact Or.inr ⟨by rw [if_neg hlt], lt_of_le_of_ne (not_lt.mp hlt) (Ne.symm hxt)⟩
  · by_cases hlt : |1 - (p.y + 1)| < |(size.h - 1) - (p.y + 1)|
    · exact Or.inl ⟨by rw [if_pos hlt], hlt⟩
    · exact Or.inr ⟨by rw [if_neg hlt], lt_of_le_of_ne (not_lt.mp hlt) (Ne.symm hyt)⟩

theorem C2_attract_max_witness :
    ((gpoint_attract_to_square ⟨3, 5⟩ ⟨10, 11⟩ ANIMATION_NORMALIZED_MAX).x = 1 ∧
        |(1 : Int) - 3| < |(10 - 1) - 3| ∨
      (gpoint_attract_to_square ⟨3, 5⟩ ⟨10, 11⟩ ANIMATION_NORMALIZED_MAX).x = 10 - 1 ∧
        |((10 : Int) - 1) - 3| < |1 - 3|) ∧
    ((gpoint_attract_to_square ⟨3, 5⟩ ⟨10, 11⟩ ANIMATION_NORMALIZED_MAX).y = 1 ∧
        |(1 : Int) - (5 + 1)| < |(11 - 1) - (5 + 1)| ∨
      (gpoint_attract_to_square ⟨3, 5⟩ ⟨10, 11⟩ ANIMATION_NORMALIZED_MAX).y = 11 - 1 ∧
        |((11 : Int) - 1) - (5 + 1)| < |1 - (5 + 1)|) :=
  C2_attract_max ⟨3, 5⟩ ⟨10, 11⟩ (by decide) (by decide) (by decide) (by decide) (by decide)
    (by decide) (by decide) (by decide)

/-- C3, as stated, fails: `i = 5` is an exact tie in a box of dimension 10, the
delta chosen is the upper-boundary one (`4`, not `-4`), and at full progress the
coordinate lands on `9`, not on `1`; so does the `x` of
`gpoint_attract_to_square` for `p.x = 5`, `w = 10`. -/
theorem C3_counterexample :
    |(1 : Int) - 5| = |(10 - 1) - 5| ∧
      delta 5 10 = (10 - 1) - 5 ∧ delta 5 10 ≠ 1 - 5 ∧
      prv_int_attract_to 5 10 ANIMATION_NORMALIZED_MAX = 9 ∧
      prv_int_attract_to 5 10 ANIMATION_NORMALIZED_MAX ≠ 1 ∧
      (gpoint_attract_to_square ⟨5, 0⟩ ⟨10, 10⟩ ANIMATION_NORMALIZED_MAX).x = 9 := by
  decide

/-- C3, amended: for every `int16_t` coordinate `i` and dimension `b` (whose
upper target `b - 1` is an `int16_t` too) with an
exact tie `|1 - i| = |(b - 1) - i|`, `prv_int_attract_to` chooses the
upper-boundary delta, so at full progress the coordinate lands on `b - 1`; unless
`b = 2` (where both targets are `1`) that delta is `(b - 1) - i`, differs from
the lower-boundary delta `1 - i`, and the coordinate does not land on `1`. -/
theorem C3_tie_upper (i b : Int) (hi : isInt16 i) (hb : isInt16 b) (hb1 : isInt16 (b - 1))
    (htie : |1 - i| = |(b - 1) - i|) :
    delta i b = delta_b i b ∧
      prv_int_attract_to i b ANIMATION_NORMALIZED_MAX = b - 1 ∧
      (b ≠ 2 → delta i b = (b - 1) - i ∧ delta i b ≠ 1 - i ∧
        prv_int_attract_to i b ANIMATION_NORMALIZED_MAX ≠ 1) := by
  unfold isInt16 at hi hb hb1
  have hcase : b = 2 ∨ b = 2 * i := by
    rcases (abs_eq_abs.mp htie) with h | h
    · left; omega
    · right; omega
  have hd : delta i b = delta_b i b := by
    rcases hcase with h | h
    · have e : delta_0 i = delta_b i b := by
        unfold delta_0 delta_b
        congr 1
        omega
      unfold delta
      rw [e]
      simp
    · have h0 : delta_0 i = 1 - i := by
        unfold delta_0
        exact wrap16_of_isInt16 (by unfold isInt16; omega)
      have hB : delta_b i b = i - 1 := by
        unfold delta_b
        have e : (b - 1) - i = i - 1 := by omega
        rw [e]
        exact wrap16_of_isInt16 (by unfold isInt16; omega)
      unfold delta
      rw [h0, hB]
      unfold ABS
      split_ifs <;> omega
  have hland : prv_int_attract_to i b ANIMATION_NORMALIZED_MAX = b - 1 := by
    rw [prv_int_attract_to_max, hd]
    unfold delta_b
    rw [wrap16_add_wrap16]
    have e : i + ((b - 1) - i) = b - 1 := by omega
    rw [e]
    exact wrap16_of_isInt16 (by unfold isInt16; omega)
  refine ⟨hd, hland, fun hne => ?_⟩
  have h2 : b = 2 * i := by
    rcases hcase with h | h
    · exact absurd h hne
    · exact h
  have hB : delta_b i b = (b - 1) - i := by
    unfold delta_b
    exact wrap16_of_isInt16 (by unfold isInt16; omega)
  refine ⟨by rw [hd, hB], ?_, ?_⟩
  · rw [hd, hB]
    omega
  · rw [hland]
    omega

theorem C3_tie_upper_witness :
    delta 5 10 = delta_b 5 10 ∧
      prv_int_attract_to 5 10 ANIMATION_NORMALIZED_MAX = 10 - 1 ∧
      ((10 : Int) ≠ 2 → delta 5 10 = (10 - 1) - 5 ∧ delta 5 10 ≠ 1 - 5 ∧
        prv_int_attract_to 5 10 ANIMATION_NORMALIZED_MAX ≠ 1) :=
  C3_tie_upper 5 10 (by decide) (by decide) (by decide) (by decide)

/-! ## The data point store -/

theorem weather_app_num_data_points_eq : weather_app_num_data_points = 4 := by decide

theorem weather_app_data_point_at_of_valid {idx : Int} (h0 : 0 ≤ idx)
    (h1 : idx < weather_app_num_data_points) :
    weather_app_data_point_at idx = DataPointRef.table idx.toNat := by
  unfold weather_app_data_point_at
  rw [if_neg (by omega)]

theorem weather_app_data_point_at_of_invalid {idx : Int}
    (h : idx < 0 ∨ weather_app_num_data_points ≤ idx) :
    weather_app_data_point_at idx = DataPointRef.null := by
  unfold weather_app_data_point_at
  rw [if_pos (by omega)]

theorem weather_app_index_of_data_point_at {i : Int} (h0 : 0 ≤ i)
    (h1 : i < weather_app_num_data_points) :
    weather_app_index_of_data_point (weather_app_data_point_at i) = i := by
  rw [weather_app_num_data_points_eq] at h1
  interval_cases i <;> decide

theorem weather_app_data_point_at_eq_null_iff (idx : Int) :
    weather_app_data_point_at idx = DataPointRef.null ↔
      (idx < 0 ∨ idx ≥ weather_app_num_data_points) := by
  by_cases h : idx < 0 ∨ idx ≥ weather_app_num_data_points
  · simp only [h, iff_true]
    exact weather_app_data_point_at_of_invalid (by omega)
  · simp only [h, iff_false]
    rw [weather_app_data_point_at_of_valid (by omega) (by omega)]
    simp

/-- A reference has an index other than `-1` exactly when it is a record of the
store. -/
theorem weather_app_index_of_data_point_ne_iff (dp : DataPointRef) :
    weather_app_index_of_data_point dp ≠ -1 ↔
      ∃ i : Int, 0 ≤ i ∧ i < weather_app_num_data_points ∧ dp = weather_app_data_point_at i := by
  constructor
  · intro hne
    unfold weather_app_index_of_data_point at hne
    split at hne
    · rename_i i hfind
      have hmem := List.mem_of_find?_eq_some hfind
      rw [List.mem_range] at hmem
      have hp := List.find?_some hfind
      exact ⟨(i : Int), by omega, by omega, of_decide_eq_true hp⟩
    · exact absurd rfl hne
  · rintro ⟨i, h0, h1, rfl⟩
    rw [weather_app_index_of_data_point_at h0 h1]
    omega

/-- The index is `-1` or a valid index. -/
theorem weather_app_index_of_data_point_range (dp : DataPointRef) :
    weather_app_index_of_data_point dp = -1 ∨
      (0 ≤ weather_app_index_of_data_point dp ∧
        weather_app_index_of_data_point dp < weather_app_num_data_points) := by
  unfold weather_app_index_of_data_point
  split
  · rename_i i hfind
    right
    have hmem := List.mem_of_find?_eq_some hfind
    rw [List.mem_range] at hmem
    omega
  · left; rfl

theorem weather_app_data_point_delta_at {i : Int} (h0 : 0 ≤ i)
    (h1 : i < weather_app_num_data_points) (d : Int) (hsum : isInt32 (i + d)) :
    weather_app_data_point_delta (weather_app_data_point_at i) d =
      weather_app_data_point_at (i + d) := by
  unfold weather_app_data_point_delta
  simp only [weather_app_index_of_data_point_at h0 h1]
  rw [if_neg (by omega), wrap32_of_isInt32 hsum]

/-- C4: for every valid index `i` and every `d` whose sum with `i` is an `int`,
`delta(at(i), d)` is `at(i + d)`; in particular stepping back from the first
record and forward from the last one gives nothing, and a zero step gives the
record itself. -/
theorem C4_delta_at (i d : Int) (h0 : 0 ≤ i) (h1 : i < weather_app_num_data_points)
    (hsum : isInt32 (i + d)) :
    weather_app_data_point_delta (weather_app_data_point_at i) d =
        weather_app_data_point_at (i + d) ∧
      weather_app_data_point_delta (weather_app_data_point_at 0) (-1) = DataPointRef.null ∧
      weather_app_data_point_delta
        (weather_app_data_point_at (weather_app_num_data_points - 1)) 1 = DataPointRef.null ∧
      weather_app_data_point_delta (weather_app_data_point_at i) 0 =
        weather_app_data_point_at i := by
  have step : ∀ e : Int, isInt32 (i + e) →
      weather_app_data_point_delta (weather_app_data_point_at i) e =
        weather_app_data_point_at (i + e) :=
    fun e he => weather_app_data_point_delta_at h0 h1 e he
  refine ⟨step d hsum, by decide, by decide, ?_⟩
  have hz := step 0 (by
    rw [weather_app_num_data_points_eq] at h1
    unfold isInt32
    omega)
  rw [Int.add_zero] at hz
  exact hz

theorem C4_delta_at_witness :
    weather_app_data_point_delta (weather_app_data_point_at 1) 2 =
        weather_app_data_point_at (1 + 2) ∧
      weather_app_data_point_delta (weather_app_data_point_at 0) (-1) = DataPointRef.null ∧
      weather_app_data_point_delta
        (weather_app_data_point_at (weather_app_num_data_points - 1)) 1 = DataPointRef.null ∧
      weather_app_data_point_delta (weather_app_data_point_at 1) 0 =
        weather_app_data_point_at 1 :=
  C4_delta_at 1 2 (by decide) (by decide) (by decide)

/-- C5: `weather_app_data_point_at(idx)` is nothing exactly when `idx < 0` or
`idx >= weather_app_num_data_points()`, the number of data points is 4, and
otherwise the result is the address of slot `idx` of the static table, which
holds the `idx`-th record: PALO ALTO 68/70/60, LOS ANGELES 100/100/80,
SAN FRANCISCO 60/62/56, SAN DIEGO 110/120/9, in this order. -/
theorem C5_data_point_at (idx : Int) :
    (weather_app_data_point_at idx = DataPointRef.null ↔
        (idx < 0 ∨ idx ≥ weather_app_num_data_points)) ∧
      weather_app_num_data_points = 4 ∧
      weather_app_data_point_at idx =
        (if idx < 0 ∨ idx ≥ 4 then DataPointRef.null else DataPointRef.table idx.toNat) ∧
      (weather_app_data_point_at idx).deref =
        (if idx < 0 ∨ idx ≥ 4 then none else s_data_points[idx.toNat]?) ∧
      ((weather_app_data_point_at idx).deref = none ↔ (idx < 0 ∨ idx ≥ 4)) ∧
      s_data_points.map (fun r => (r.city, r.current, r.high, r.low)) =
        [("PALO ALTO", 68, 70, 60), ("LOS ANGELES", 100, 100, 80),
          ("SAN FRANCISCO", 60, 62, 56), ("SAN DIEGO", 110, 120, 9)] ∧
      ((weather_app_data_point_at 0).deref.map fun r => (r.city, r.current, r.high, r.low)) =
        some ("PALO ALTO", 68, 70, 60) ∧
      ((weather_app_data_point_at 1).deref.map fun r => (r.city, r.current, r.high, r.low)) =
        some ("LOS ANGELES", 100, 100, 80) ∧
      ((weather_app_data_point_at 2).deref.map fun r => (r.city, r.current, r.high, r.low)) =
        some ("SAN FRANCISCO", 60, 62, 56) ∧
      ((weather_app_data_point_at 3).deref.map fun r => (r.city, r.current, r.high, r.low)) =
        some ("SAN DIEGO", 110, 120, 9) := by
  have hnum := weather_app_num_data_points_eq
  have hat : weather_app_data_point_at idx =
      (if idx < 0 ∨ idx ≥ 4 then DataPointRef.null else DataPointRef.table idx.toNat) := by
    by_cases h : idx < 0 ∨ idx ≥ 4
    · rw [if_pos h]
      exact weather_app_data_point_at_of_invalid (by omega)
    · rw [if_neg h]
      exact weather_app_data_point_at_of_valid (by omega) (by omega)
  have hderef : (weather_app_data_point_at idx).deref =
      (if idx < 0 ∨ idx ≥ 4 then none else s_data_points[idx.toNat]?) := by
    rw [hat]
    by_cases h : idx < 0 ∨ idx ≥ 4
    · rw [if_pos h, if_pos h]
      rfl
    · rw [if_neg h, if_neg h]
      rfl
  refine ⟨weather_app_data_point_at_eq_null_iff idx, hnum, hat, hderef, ?_,
    by decide, by decide, by decide, by decide, by decide⟩
  · rw [hderef]
    by_cases h : idx < 0 ∨ idx ≥ 4
    · simp [h]
    · rw [if_neg h]
      have hlt : idx.toNat < s_data_points.length := by
        have : s_data_points.length = 4 := by decide
        omega
      simp only [h, iff_false]
      rw [List.getElem?_eq_getElem hlt]
      simp

/-- C6, as stated, fails: the null pointer and a record outside the table have
index `-1`, a step of `+1` from them gives nothing, but `at(-1 + 1)` is the
first record of the store. -/
theorem C6_counterexample :
    weather_app_index_of_data_point DataPointRef.null = -1 ∧
      weather_app_data_point_delta DataPointRef.null 1 = DataPointRef.null ∧
      weather_app_data_point_at (weather_app_index_of_data_point DataPointRef.null + 1) =
        DataPointRef.table 0 ∧
      weather_app_data_point_delta DataPointRef.null 1 ≠
        weather_app_data_point_at (weather_app_index_of_data_point DataPointRef.null + 1) ∧
      weather_app_index_of_data_point
        (DataPointRef.other 0 ⟨"PALO ALTO", "Light Rain.", WEATHER_APP_ICON_LIGHT_RAIN, 68, 70, 60⟩)
        = -1 ∧
      weather_app_data_point_delta
        (DataPointRef.other 0 ⟨"PALO ALTO", "Light Rain.", WEATHER_APP_ICON_LIGHT_RAIN, 68, 70, 60⟩)
        1 ≠ weather_app_data_point_at (-1 + 1) := by
  decide

/-- C6, amended: for every data point reference `p` and every `d` whose sum with
the index of `p` is an `int`: when `p` is a record of the store (its index is
not `-1`), `delta(p, d)` is `at(indexOf(p) + d)`, which is nothing exactly when
`indexOf(p) + d` lands outside `[0, count)`; when `p` is not a record of the
store (its index is `-1`), `delta(p, d)` is nothing whatever `d` is. The index
is other than `-1` exactly for the records `at(i)`, `0 <= i < count`. -/
theorem C6_delta_index_of (p : DataPointRef) (d : Int)
    (hsum : isInt32 (weather_app_index_of_data_point p + d)) :
    (weather_app_index_of_data_point p ≠ -1 ↔
        ∃ i : Int, 0 ≤ i ∧ i < weather_app_num_data_points ∧ p = weather_app_data_point_at i) ∧
    (weather_app_index_of_data_point p ≠ -1 →
        weather_app_data_point_delta p d =
          weather_app_data_point_at (weather_app_index_of_data_point p + d) ∧
        (weather_app_data_point_delta p d = DataPointRef.null ↔
          (weather_app_index_of_data_point p + d < 0 ∨
            weather_app_index_of_data_point p + d ≥ weather_app_num_data_points))) ∧
      (weather_app_index_of_data_point p = -1 →
        weather_app_data_point_delta p d = DataPointRef.null) := by
  refine ⟨weather_app_index_of_data_point_ne_iff p, ?_, ?_⟩
  · intro hne
    have hidx : 0 ≤ weather_app_index_of_data_point p := by
      rcases weather_app_index_of_data_point_range p with h | h
      · exact absurd h hne
      · exact h.1
    have hd : weather_app_data_point_delta p d =
        weather_app_data_point_at (weather_app_index_of_data_point p + d) := by
      unfold weather_app_data_point_delta
      simp only []
      rw [if_neg (by omega), wrap32_of_isInt32 hsum]
    refine ⟨hd, ?_⟩
    rw [hd]
    exact weather_app_data_point_at_eq_null_iff _
  · intro h
    unfold weather_app_data_point_delta
    simp only []
    rw [if_pos (by omega)]

theorem C6_delta_index_of_witness :
    (weather_app_index_of_data_point (DataPointRef.table 2) ≠ -1 ↔
        ∃ i : Int, 0 ≤ i ∧ i < weather_app_num_data_points ∧
          DataPointRef.table 2 = weather_app_data_point_at i) ∧
    (weather_app_index_of_data_point (DataPointRef.table 2) ≠ -1 →
        weather_app_data_point_delta (DataPointRef.table 2) 1 =
          weather_app_data_point_at (weather_app_index_of_data_point (DataPointRef.table 2) + 1) ∧
        (weather_app_data_point_delta (DataPointRef.table 2) 1 = DataPointRef.null ↔
          (weather_app_index_of_data_point (DataPointRef.table 2) + 1 < 0 ∨
            weather_app_index_of_data_point (DataPointRef.table 2) + 1 ≥
              weather_app_num_data_points))) ∧
      (weather_app_index_of_data_point (DataPointRef.table 2) = -1 →
        weather_app_data_point_delta (DataPointRef.table 2) 1 = DataPointRef.null) :=
  C6_delta_index_of (DataPointRef.table 2) 1 (by decide)

/-! ## Paging -/

/-- A valid index resolves to a record. -/
theorem deref_weather_app_data_point_at {i : Int} (h0 : 0 ≤ i)
    (h1 : i < weather_app_num_data_points) :
    ∃ dp, (weather_app_data_point_at i).deref = some dp ∧ s_data_points[i.toNat]? = some dp := by
  rw [weather_app_num_data_points_eq] at h1
  interval_cases i <;> exact ⟨_, rfl, rfl⟩

/-- What `animation_for_scroll` builds for a target that resolves to a record:
the full page transition, and the allocation of the target's icon. -/
theorem animation_for_scroll_eq (data : WeatherAppData) (trace : List Event)
    (direction : ScrollDirection) (next : DataPointRef) (dp : WeatherAppDataPoint)
    (h : next.deref = some dp) :
    animation_for_scroll data trace direction next =
      some (spec_page_transition (get_animated_numbers data.view_model) trace direction next dp,
        (weather_app_resources_get_icon trace dp.icon).2) := by
  cases direction <;>
  simp [animation_for_scroll, weather_app_create_view_model_animation_icon,
    weather_app_create_view_model_animation_numbers, weather_app_data_point_create_icon,
    weather_app_data_point_view_model_numbers, weather_app_create_view_model_animation_bgcolor,
    h, property_animation_create, animation_set_duration, animation_set_curve,
    animation_set_reverse, animation_set_handlers, animation_spawn_create,
    animation_sequence_create, BACKGROUND_SCROLL_DURATION, SCROLL_DURATION,
    spec_page_transition, spec_inbound_group, spec_scroll_in, spec_scroll_out,
    create_outbound_anim, create_inbound_anim, create_anim_scroll_in, create_anim_scroll_out,
    SCROLL_DIST_IN, SCROLL_DIST_OUT]

/-- What `animation_for_bounce` builds: the inbound scroll group. -/
theorem animation_for_bounce_eq (data : WeatherAppData) (direction : ScrollDirection) :
    animation_for_bounce data direction = spec_inbound_group direction := by
  cases direction <;>
  simp [animation_for_bounce, spec_inbound_group, spec_scroll_in,
    create_inbound_anim, create_anim_scroll_in, property_animation_create,
    animation_set_duration, animation_set_curve, animation_spawn_create, SCROLL_DURATION,
    SCROLL_DIST_IN]

/-- Paging with a target: the data point switches and the full page transition
towards the target is scheduled. -/
theorem ask_for_scroll_of_target (scheduler : AnimationScheduler) (s : AppState)
    (direction : ScrollDirection) (next : DataPointRef) (dp : WeatherAppDataPoint)
    (hnext : weather_app_data_point_delta s.data.data_point
      (if direction = ScrollDirectionUp then -1 else 1) = next)
    (hdp : next.deref = some dp) :
    ∃ s', ask_for_scroll scheduler s direction = some s' ∧ s'.data.data_point = next ∧
      s'.data.previous_animation = some (spec_page_transition
        (get_animated_numbers s.data.view_model) s.trace direction next dp) := by
  have hne : next ≠ DataPointRef.null := by
    intro h
    rw [h] at hdp
    exact absurd hdp (by simp [DataPointRef.deref])
  unfold ask_for_scroll
  simp only [hnext, if_neg hne]
  rw [animation_for_scroll_eq _ _ _ _ dp hdp]
  exact ⟨_, rfl, rfl, rfl⟩

/-- Paging without a target: the data point stays and the bounce is scheduled. -/
theorem ask_for_scroll_of_no_target (scheduler : AnimationScheduler) (s : AppState)
    (direction : ScrollDirection)
    (hnext : weather_app_data_point_delta s.data.data_point
      (if direction = ScrollDirectionUp then -1 else 1) = DataPointRef.null) :
    ∃ s', ask_for_scroll scheduler s direction = some s' ∧
      s'.data.data_point = s.data.data_point ∧
      s'.data.previous_animation = some (spec_inbound_group direction) := by
  unfold ask_for_scroll
  simp only [hnext, if_true]
  exact ⟨_, rfl, rfl, by rw [← animation_for_bounce_eq s.data direction]⟩

/-- C7: for a current data point at index `i` of the 4-record store,
`ask_for_scroll` sets the current data point to `at(i+1)` for Down when `i < 3`
and to `at(i-1)` for Up when `i > 0`, and schedules the full page transition
towards that target (outbound then inbound scroll group, background blend, icon
morph and numeric counter, all bound to the target); for Down at index 3 and Up
at index 0 it leaves the current data point unchanged and schedules the bounce,
which is the inbound scroll group only: each of its channels scrolls a layer
from an offset back to the origin, so it has no outbound, background, icon or
number channel. This holds whatever the scheduler does to the view model. -/
theorem C7_ask_for_scroll (scheduler : AnimationScheduler) (s : AppState) (i : Int)
    (h0 : 0 ≤ i) (h1 : i < weather_app_num_data_points)
    (hcur : s.data.data_point = weather_app_data_point_at i) :
    (i < 3 → ∃ dp s', (weather_app_data_point_at (i + 1)).deref = some dp ∧
        ask_for_scroll scheduler s ScrollDirectionDown = some s' ∧
        s'.data.data_point = weather_app_data_point_at (i + 1) ∧
        s'.data.previous_animation = some (spec_page_transition
          (get_animated_numbers s.data.view_model) s.trace ScrollDirectionDown
          (weather_app_data_point_at (i + 1)) dp)) ∧
    (0 < i → ∃ dp s', (weather_app_data_point_at (i - 1)).deref = some dp ∧
        ask_for_scroll scheduler s ScrollDirectionUp = some s' ∧
        s'.data.data_point = weather_app_data_point_at (i - 1) ∧
        s'.data.previous_animation = some (spec_page_transition
          (get_animated_numbers s.data.view_model) s.trace ScrollDirectionUp
          (weather_app_data_point_at (i - 1)) dp)) ∧
    (i = 3 → ∃ s', ask_for_scroll scheduler s ScrollDirectionDown = some s' ∧
        s'.data.data_point = s.data.data_point ∧
        s'.data.previous_animation = some (animation_for_bounce s.data ScrollDirectionDown)) ∧
    (i = 0 → ∃ s', ask_for_scroll scheduler s ScrollDirectionUp = some s' ∧
        s'.data.data_point = s.data.data_point ∧
        s'.data.previous_animation = some (animation_for_bounce s.data ScrollDirectionUp)) ∧
    (∀ direction, animation_for_bounce s.data direction = spec_inbound_group direction ∧
      ∀ impl ∈ (animation_for_bounce s.data direction).implementations,
        ∃ layer dy, impl = AnimationImplementation.bounds_origin layer (some ⟨0, dy⟩)
          (some ⟨0, 0⟩)) := by
  have hnum := weather_app_num_data_points_eq
  refine ⟨fun h => ?_, fun h => ?_, fun h => ?_, fun h => ?_, fun direction => ?_⟩
  · obtain ⟨dp, hdp, _⟩ := deref_weather_app_data_point_at (i := i + 1) (by omega) (by omega)
    have hnext : weather_app_data_point_delta s.data.data_point
        (if ScrollDirectionDown = ScrollDirectionUp then -1 else 1) =
          weather_app_data_point_at (i + 1) := by
      rw [hcur, if_neg (by decide)]
      exact weather_app_data_point_delta_at h0 h1 1 (by unfold isInt32; omega)
    obtain ⟨s', hs, hd, hp⟩ := ask_for_scroll_of_target scheduler s _ _ dp hnext hdp
    exact ⟨dp, s', hdp, hs, hd, hp⟩
  · obtain ⟨dp, hdp, _⟩ := deref_weather_app_data_point_at (i := i - 1) (by omega) (by omega)
    have hnext : weather_app_data_point_delta s.data.data_point
        (if ScrollDirectionUp = ScrollDirectionUp then -1 else 1) =
          weather_app_data_point_at (i - 1) := by
      rw [hcur, if_pos rfl]
      exact weather_app_data_point_delta_at h0 h1 (-1) (by unfold isInt32; omega)
    obtain ⟨s', hs, hd, hp⟩ := ask_for_scroll_of_target scheduler s _ _ dp hnext hdp
    exact ⟨dp, s', hdp, hs, hd, hp⟩
  · have hnext : weather_app_data_point_delta s.data.data_point
        (if ScrollDirectionDown = ScrollDirectionUp then -1 else 1) = DataPointRef.null := by
      rw [hcur, h]
      decide
    obtain ⟨s', hs, hd, hp⟩ := ask_for_scroll_of_no_target scheduler s _ hnext
    exact ⟨s', hs, hd, by rw [hp, animation_for_bounce_eq]⟩
  · have hnext : weather_app_data_point_delta s.data.data_point
        (if ScrollDirectionUp = ScrollDirectionUp then -1 else 1) = DataPointRef.null := by
      rw [hcur, h]
      decide
    obtain ⟨s', hs, hd, hp⟩ := ask_for_scroll_of_no_target scheduler s _ hnext
    exact ⟨s', hs, hd, by rw [hp, animation_for_bounce_eq]⟩
  · refine ⟨animation_for_bounce_eq s.data direction, ?_⟩
    rw [animation_for_bounce_eq]
    cases direction <;>
    simp [spec_inbound_group, spec_scroll_in, Animation.implementations, implementations_list]

theorem C7_ask_for_scroll_witness :
    ((3 : Int) < 3 → ∃ dp s', (weather_app_data_point_at (3 + 1)).deref = some dp ∧
        ask_for_scroll idle_scheduler ⟨⟨weather_app_data_point_at 3, memset_0, none⟩, []⟩
          ScrollDirectionDown = some s' ∧
        s'.data.data_point = weather_app_data_point_at (3 + 1) ∧
        s'.data.previous_animation = some (spec_page_transition
          (get_animated_numbers memset_0) [] ScrollDirectionDown
          (weather_app_data_point_at (3 + 1)) dp)) ∧
    ((0 : Int) < 3 → ∃ dp s', (weather_app_data_point_at (3 - 1)).deref = some dp ∧
        ask_for_scroll idle_scheduler ⟨⟨weather_app_data_point_at 3, memset_0, none⟩, []⟩
          ScrollDirectionUp = some s' ∧
        s'.data.data_point = weather_app_data_point_at (3 - 1) ∧
        s'.data.previous_animation = some (spec_page_transition
          (get_animated_numbers memset_0) [] ScrollDirectionUp
          (weather_app_data_point_at (3 - 1)) dp)) ∧
    ((3 : Int) = 3 → ∃ s',
        ask_for_scroll idle_scheduler ⟨⟨weather_app_data_point_at 3, memset_0, none⟩, []⟩
          ScrollDirectionDown = some s' ∧
        s'.data.data_point = weather_app_data_point_at 3 ∧
        s'.data.previous_animation = some (animation_for_bounce
          ⟨weather_app_data_point_at 3, memset_0, none⟩ ScrollDirectionDown)) ∧
    ((3 : Int) = 0 → ∃ s',
        ask_for_scroll idle_scheduler ⟨⟨weather_app_data_point_at 3, memset_0, none⟩, []⟩
          ScrollDirectionUp = some s' ∧
        s'.data.data_point = weather_app_data_point_at 3 ∧
        s'.data.previous_animation = some (animation_for_bounce
          ⟨weather_app_data_point_at 3, memset_0, none⟩ ScrollDirectionUp)) ∧
    (∀ direction,
      animation_for_bounce ⟨weather_app_data_point_at 3, memset_0, none⟩ direction =
        spec_inbound_group direction ∧
      ∀ impl ∈ (animation_for_bounce ⟨weather_app_data_point_at 3, memset_0, none⟩
          direction).implementations,
        ∃ layer dy, impl = AnimationImplementation.bounds_origin layer (some ⟨0, dy⟩)
          (some ⟨0, 0⟩)) :=
  C7_ask_for_scroll idle_scheduler ⟨⟨weather_app_data_point_at 3, memset_0, none⟩, []⟩ 3
    (by decide) (by decide) rfl

/-! ## Formatted text -/

theorem decimalAux_length_le (fuel : Nat) :
    ∀ (n : Nat) (acc : List Nat) (k : Nat), n < 10 ^ (k + 1) →
      (decimalAux fuel n acc).length ≤ acc.length + (k + 1) := by
  induction fuel with
  | zero =>
    intro n acc k _
    simp [decimalAux]
  | succ fuel ih =>
    intro n acc k h
    unfold decimalAux
    split
    · simp
    · rename_i hn
      cases k with
      | zero => omega
      | succ k =>
        have hdiv : n / 10 < 10 ^ (k + 1) := by
          rw [Nat.div_lt_iff_lt_mul (by decide)]
          calc n < 10 ^ (k + 1 + 1) := h
            _ = 10 ^ (k + 1) * 10 := by ring
        have := ih (n / 10) ((48 + n % 10) :: acc) k hdiv
        simp only [List.length_cons] at this
        omega

theorem decimal_length_le {n k : Nat} (h : n < 10 ^ (k + 1)) : (decimal n).length ≤ k + 1 := by
  have := decimalAux_length_le n n [] k h
  simpa [decimal] using this

theorem decimalAux_length_ge (fuel : Nat) :
    ∀ (n : Nat) (acc : List Nat) (k : Nat), 10 ^ k ≤ n → k ≤ fuel →
      acc.length + (k + 1) ≤ (decimalAux fuel n acc).length := by
  induction fuel with
  | zero =>
    intro n acc k _ hk
    have : k = 0 := by omega
    subst this
    simp [decimalAux]
  | succ fuel ih =>
    intro n acc k h hk
    unfold decimalAux
    split
    · rename_i hn
      cases k with
      | zero => simp
      | succ k =>
        have : 10 ^ (k + 1) = 10 ^ k * 10 := by ring
        have : 0 < 10 ^ k := Nat.pow_pos (by decide)
        omega
    · rename_i hn
      cases k with
      | zero =>
        have := ih (n / 10) ((48 + n % 10) :: acc) 0 (by omega) (by omega)
        simp only [List.length_cons] at this
        omega
      | succ k =>
        have hdiv : 10 ^ k ≤ n / 10 := by
          rw [Nat.le_div_iff_mul_le (by decide)]
          calc 10 ^ k * 10 = 10 ^ (k + 1) := by ring
            _ ≤ n := h
        have := ih (n / 10) ((48 + n % 10) :: acc) k hdiv (by omega)
        simp only [List.length_cons] at this
        omega

/-- A value of `-10000` or less is rendered by `%d` in at least six
characters. -/
theorem fmt_d_length_ge_six {v : Int} (h : v ≤ -10000) : 6 ≤ (fmt_d v).length := by
  unfold fmt_d
  rw [if_pos (by omega)]
  have := decimalAux_length_ge v.natAbs v.natAbs [] 4 (by omega) (by omega)
  simp only [List.length_cons, decimal]
  simp only [List.length_nil] at this
  omega

/-- A value in `[-9999, 99999]` is rendered by `%d` in at most five
characters. -/
theorem fmt_d_length_le_five {v : Int} (h1 : -9999 ≤ v) (h2 : v ≤ 99999) :
    (fmt_d v).length ≤ 5 := by
  unfold fmt_d
  split
  · have : (decimal v.natAbs).length ≤ 4 := decimal_length_le (k := 3) (by omega)
    simp only [List.length_cons]
    omega
  · exact decimal_length_le (k := 4) (by omega)

/-- A value in `[-99, 999]` is rendered by `%d` in at most three characters. -/
theorem fmt_d_length_le_three {v : Int} (h1 : -99 ≤ v) (h2 : v ≤ 999) :
    (fmt_d v).length ≤ 3 := by
  unfold fmt_d
  split
  · have : (decimal v.natAbs).length ≤ 2 := decimal_length_le (k := 1) (by omega)
    simp only [List.length_cons]
    omega
  · exact decimal_length_le (k := 2) (by omega)

theorem highlow_output_length (high low : Int) :
    (cstr "HI " ++ fmt_d high ++ cstr "°, LO " ++ fmt_d low ++ cstr "°").length =
      (fmt_d high).length + (fmt_d low).length + 12 := by
  have e1 : (cstr "HI ").length = 3 := by decide
  have e2 : (cstr "°, LO ").length = 7 := by decide
  have e3 : (cstr "°").length = 2 := by decide
  simp only [List.length_append, e1, e2, e3]
  omega

theorem temperature_output_length (v : Int) :
    (fmt_d v ++ cstr "°").length = (fmt_d v).length + 2 := by
  have e3 : (cstr "°").length = 2 := by decide
  simp only [List.length_append, e3]

/-- C8, as stated, fails: the temperature `-10000` is stored with the text
`-10000` followed by the first byte only of the degree sign, and the pair
`1000`, `1000` with a text that ends in the first byte of the second degree
sign. -/
theorem C8_counterexample :
    isInt16 (-10000) ∧ isInt16 1000 ∧
      (weather_app_view_model_set_temperature ⟨memset_0, []⟩ (-10000)).model.temperature.text =
        cstr "-10000" ++ [0xC2] ∧
      (weather_app_view_model_set_temperature ⟨memset_0, []⟩ (-10000)).model.temperature.text ≠
        fmt_d (-10000) ++ cstr "°" ∧
      (weather_app_view_model_set_highlow ⟨memset_0, []⟩ 1000 1000).model.highlow.text =
        cstr "HI 1000°, LO 1000" ++ [0xC2] ∧
      (weather_app_view_model_set_highlow ⟨memset_0, []⟩ 1000 1000).model.highlow.text ≠
        cstr "HI " ++ fmt_d 1000 ++ cstr "°, LO " ++ fmt_d 1000 ++ cstr "°" := by
  decide

/-- C8, amended: for every 16-bit `v`, `weather_app_view_model_set_temperature`
stores `v` and leaves in `temperature.text` the first 7 bytes of the decimal
rendering of `v` followed by the degree sign, which is the whole of it exactly
when `v >= -9999`;
for every `high` and `low`, `weather_app_view_model_set_highlow` (and
`weather_view_model_fill_numbers`) stores them and leaves in `highlow.text` the
first 19 bytes of `HI <high>°, LO <low>°`, which is the whole of it exactly when
the two renderings have at most 7 characters together, in particular when both
values lie in `[-99, 999]`. -/
theorem C8_texts_agree (s : ViewModelState) (v high low : Int) (hv : isInt16 v) :
    ((weather_app_view_model_set_temperature s v).model.temperature.value = v ∧
      (weather_app_view_model_set_temperature s v).model.temperature.text =
        (fmt_d v ++ cstr "°").take 7 ∧
      ((weather_app_view_model_set_temperature s v).model.temperature.text =
        fmt_d v ++ cstr "°" ↔ -9999 ≤ v)) ∧
    ((weather_app_view_model_set_highlow s high low).model.highlow.high = high ∧
      (weather_app_view_model_set_highlow s high low).model.highlow.low = low ∧
      (weather_app_view_model_set_highlow s high low).model.highlow.text =
        (cstr "HI " ++ fmt_d high ++ cstr "°, LO " ++ fmt_d low ++ cstr "°").take 19 ∧
      ((weather_app_view_model_set_highlow s high low).model.highlow.text =
          cstr "HI " ++ fmt_d high ++ cstr "°, LO " ++ fmt_d low ++ cstr "°" ↔
        (fmt_d high).length + (fmt_d low).length ≤ 7) ∧
      (-99 ≤ high → high ≤ 999 → -99 ≤ low → low ≤ 999 →
        (weather_app_view_model_set_highlow s high low).model.highlow.text =
          cstr "HI " ++ fmt_d high ++ cstr "°, LO " ++ fmt_d low ++ cstr "°")) ∧
    ((weather_view_model_fill_numbers s ⟨v, low, high⟩).model.temperature =
        (weather_app_view_model_set_temperature s v).model.temperature ∧
      (weather_view_model_fill_numbers s ⟨v, low, high⟩).model.highlow =
        (weather_app_view_model_set_highlow s high low).model.highlow) := by
  unfold isInt16 at hv
  have tiff : ((fmt_d v ++ cstr "°").take 7 = fmt_d v ++ cstr "°" ↔ -9999 ≤ v) := by
    rw [List.take_eq_self_iff, temperature_output_length]
    constructor
    · intro h
      by_contra hlt
      have := fmt_d_length_ge_six (v := v) (by omega)
      omega
    · intro h
      have := fmt_d_length_le_five h (by omega)
      omega
  have hiff : ((cstr "HI " ++ fmt_d high ++ cstr "°, LO " ++ fmt_d low ++ cstr "°").take 19 =
      cstr "HI " ++ fmt_d high ++ cstr "°, LO " ++ fmt_d low ++ cstr "°" ↔
        (fmt_d high).length + (fmt_d low).length ≤ 7) := by
    rw [List.take_eq_self_iff, highlow_output_length]
    omega
  refine ⟨⟨rfl, rfl, tiff⟩, ⟨rfl, rfl, rfl, hiff, fun a b c d => ?_⟩, rfl, rfl⟩
  · have := fmt_d_length_le_three a b
    have := fmt_d_length_le_three c d
    exact hiff.mpr (by omega)

theorem C8_texts_agree_witness :
    ((weather_app_view_model_set_temperature ⟨memset_0, []⟩ 68).model.temperature.value = 68 ∧
      (weather_app_view_model_set_temperature ⟨memset_0, []⟩ 68).model.temperature.text =
        (fmt_d 68 ++ cstr "°").take 7 ∧
      ((weather_app_view_model_set_temperature ⟨memset_0, []⟩ 68).model.temperature.text =
        fmt_d 68 ++ cstr "°" ↔ -9999 ≤ (68 : Int))) ∧
    ((weather_app_view_model_set_highlow ⟨memset_0, []⟩ 70 60).model.highlow.high = 70 ∧
      (weather_app_view_model_set_highlow ⟨memset_0, []⟩ 70 60).model.highlow.low = 60 ∧
      (weather_app_view_model_set_highlow ⟨memset_0, []⟩ 70 60).model.highlow.text =
        (cstr "HI " ++ fmt_d 70 ++ cstr "°, LO " ++ fmt_d 60 ++ cstr "°").take 19 ∧
      ((weather_app_view_model_set_highlow ⟨memset_0, []⟩ 70 60).model.highlow.text =
          cstr "HI " ++ fmt_d 70 ++ cstr "°, LO " ++ fmt_d 60 ++ cstr "°" ↔
        (fmt_d 70).length + (fmt_d 60).length ≤ 7) ∧
      (-99 ≤ (70 : Int) → (70 : Int) ≤ 999 → -99 ≤ (60 : Int) → (60 : Int) ≤ 999 →
        (weather_app_view_model_set_highlow ⟨memset_0, []⟩ 70 60).model.highlow.text =
          cstr "HI " ++ fmt_d 70 ++ cstr "°, LO " ++ fmt_d 60 ++ cstr "°")) ∧
    ((weather_view_model_fill_numbers ⟨memset_0, []⟩ ⟨68, 60, 70⟩).model.temperature =
        (weather_app_view_model_set_temperature ⟨memset_0, []⟩ 68).model.temperature ∧
      (weather_view_model_fill_numbers ⟨memset_0, []⟩ ⟨68, 60, 70⟩).model.highlow =
        (weather_app_view_model_set_highlow ⟨memset_0, []⟩ 70 60).model.highlow) :=
  C8_texts_agree ⟨memset_0, []⟩ 68 70 60 (by decide)

/-! ## The bulk fill -/

theorem announce_changed_model (s : ViewModelState) :
    (weather_app_main_window_view_model_announce_changed s).model = s.model := by
  unfold weather_app_main_window_view_model_announce_changed
  split <;> rfl

/-- The model left by `weather_app_view_model_fill_all` for a data point that
resolves to the record `dp`. -/
theorem weather_app_view_model_fill_all_model (s : ViewModelState) (data_point : DataPointRef)
    (dp : WeatherAppDataPoint) (h : data_point.deref = some dp) :
    ∃ s', weather_app_view_model_fill_all s data_point = some s' ∧
      s'.model.announce_changed = s.model.announce_changed ∧
      s'.model.bg_color =
        { top := if dp.current > 90 then GColorOrange else GColorPictonBlue,
          bottom := if dp.current > 90 then GColorOrange else GColorPictonBlue,
          to_bottom_normalized := 0 } ∧
      s'.model.city = some dp.city ∧
      s'.model.description = some dp.description ∧
      s'.model.temperature =
        { value := dp.current, text := snprintf 8 (fmt_d dp.current ++ cstr "°") } ∧
      s'.model.highlow =
        { high := dp.high, low := dp.low,
          text := snprintf 20
            (cstr "HI " ++ fmt_d dp.high ++ cstr "°, LO " ++ fmt_d dp.low ++ cstr "°") } ∧
      s'.model.pagination =
        { idx := wrap16 (1 + weather_app_index_of_data_point data_point),
          num := wrap16 weather_app_num_data_points,
          text := snprintf 8
            (fmt_d (wrap16 (1 + weather_app_index_of_data_point data_point)) ++ cstr "/" ++
              fmt_d (wrap16 weather_app_num_data_points)) } ∧
      s'.model.icon.to_square_normalized = 0 ∧
      ∃ trace, s'.model.icon.draw_command = (weather_app_resources_get_icon trace dp.icon).1 := by
  obtain ⟨s', hs'⟩ : ∃ s', weather_app_view_model_fill_all s data_point = some s' := by
    simp [weather_app_view_model_fill_all, weather_app_view_model_fill_strings_and_pagination,
      weather_app_data_point_create_icon, weather_app_data_point_color,
      weather_app_data_point_view_model_numbers, h]
  have hs := hs'
  simp only [weather_app_view_model_fill_all, weather_app_view_model_fill_strings_and_pagination,
      weather_app_data_point_create_icon, weather_app_data_point_color,
      weather_app_data_point_view_model_numbers, h, Option.bind_eq_bind, Option.some_bind,
      Option.pure_def, Option.some.injEq] at hs
  refine ⟨s', hs', ?_⟩
  rw [← hs]
  simp only [announce_changed_model, weather_view_model_fill_numbers,
      weather_app_view_model_set_highlow, weather_app_view_model_set_temperature,
      weather_app_view_model_fill_colors, weather_app_view_model_set_icon, memset_0, true_and]
  exact ⟨_, rfl⟩

/-- The texts of the records of the store fit their buffers. -/
theorem store_texts_fit :
    ∀ dp ∈ s_data_points,
      snprintf 8 (fmt_d dp.current ++ cstr "°") = fmt_d dp.current ++ cstr "°" ∧
      snprintf 20 (cstr "HI " ++ fmt_d dp.high ++ cstr "°, LO " ++ fmt_d dp.low ++ cstr "°") =
        cstr "HI " ++ fmt_d dp.high ++ cstr "°, LO " ++ fmt_d dp.low ++ cstr "°" := by
  decide

theorem store_pagination {i : Int} (h0 : 0 ≤ i) (h1 : i < weather_app_num_data_points) :
    wrap16 (1 + weather_app_index_of_data_point (weather_app_data_point_at i)) = i + 1 ∧
      wrap16 weather_app_num_data_points = 4 ∧
      snprintf 8 (fmt_d (i + 1) ++ cstr "/" ++ fmt_d 4) = fmt_d (i + 1) ++ cstr "/" ++ cstr "4" := by
  rw [weather_app_num_data_points_eq] at h1
  interval_cases i <;> decide

/-- C9: for every prior view-model state and every data point `dp = at(i)` of
the store, `weather_app_view_model_fill_all` returns and leaves the model equal
to the representation of `dp`: city and description of `dp`, pagination
`(i+1, 4, "<i+1>/4")`, temperature `dp.current` and high/low `(dp.high, dp.low)`
with their texts, both background colours the colour of `dp` (orange when
`dp.current > 90`, picton blue otherwise), both normalized progress values `0`,
the icon an asset resolved for `dp.icon`, and the callback the one registered
before the call. -/
theorem C9_fill_all (s : ViewModelState) (i : Int) (h0 : 0 ≤ i)
    (h1 : i < weather_app_num_data_points) :
    ∃ dp s', (weather_app_data_point_at i).deref = some dp ∧
      s_data_points[i.toNat]? = some dp ∧
      weather_app_view_model_fill_all s (weather_app_data_point_at i) = some s' ∧
      s'.model.city = some dp.city ∧
      s'.model.description = some dp.description ∧
      s'.model.pagination =
        { idx := i + 1, num := 4, text := fmt_d (i + 1) ++ cstr "/" ++ cstr "4" } ∧
      s'.model.temperature =
        { value := dp.current, text := fmt_d dp.current ++ cstr "°" } ∧
      s'.model.highlow =
        { high := dp.high, low := dp.low,
          text := cstr "HI " ++ fmt_d dp.high ++ cstr "°, LO " ++ fmt_d dp.low ++ cstr "°" } ∧
      s'.model.bg_color =
        { top := if dp.current > 90 then GColorOrange else GColorPictonBlue,
          bottom := if dp.current > 90 then GColorOrange else GColorPictonBlue,
          to_bottom_normalized := 0 } ∧
      s'.model.icon.to_square_normalized = 0 ∧
      (∃ trace, s'.model.icon.draw_command = (weather_app_resources_get_icon trace dp.icon).1) ∧
      s'.model.announce_changed = s.model.announce_changed := by
  obtain ⟨dp, hdp, hget⟩ := deref_weather_app_data_point_at h0 h1
  obtain ⟨s', hs', ha, hbg, hc, hd, ht, hh, hp, hi, hic⟩ :=
    weather_app_view_model_fill_all_model s (weather_app_data_point_at i) dp hdp
  obtain ⟨ft, fh⟩ := store_texts_fit dp (List.getElem?_mem hget)
  obtain ⟨p1, p2, p3⟩ := store_pagination h0 h1
  rw [ft] at ht
  rw [fh] at hh
  rw [p1, p2, p3] at hp
  exact ⟨dp, s', hdp, hget, hs', hc, hd, hp, ht, hh, hbg, hi, hic, ha⟩

theorem C9_fill_all_witness :
    ∃ dp s', (weather_app_data_point_at 2).deref = some dp ∧
      s_data_points[(2 : Int).toNat]? = some dp ∧
      weather_app_view_model_fill_all ⟨memset_0, []⟩ (weather_app_data_point_at 2) = some s' ∧
      s'.model.city = some dp.city ∧
      s'.model.description = some dp.description ∧
      s'.model.pagination =
        { idx := 2 + 1, num := 4, text := fmt_d (2 + 1) ++ cstr "/" ++ cstr "4" } ∧
      s'.model.temperature =
        { value := dp.current, text := fmt_d dp.current ++ cstr "°" } ∧
      s'.model.highlow =
        { high := dp.high, low := dp.low,
          text := cstr "HI " ++ fmt_d dp.high ++ cstr "°, LO " ++ fmt_d dp.low ++ cstr "°" } ∧
      s'.model.bg_color =
        { top := if dp.current > 90 then GColorOrange else GColorPictonBlue,
          bottom := if dp.current > 90 then GColorOrange else GColorPictonBlue,
          to_bottom_normalized := 0 } ∧
      s'.model.icon.to_square_normalized = 0 ∧
      (∃ trace, s'.model.icon.draw_command = (weather_app_resources_get_icon trace dp.icon).1) ∧
      s'.model.announce_changed = (⟨memset_0, []⟩ : ViewModelState).model.announce_changed :=
  C9_fill_all ⟨memset_0, []⟩ 2 (by decide) (by decide)

theorem count_announce_changed_append (a b : List Event) :
    count_announce_changed (a ++ b) = count_announce_changed a + count_announce_changed b := by
  simp [count_announce_changed, List.filter_append]

theorem announce_changed_count (s : ViewModelState) (f : WeatherAppMainWindowViewModelFunc)
    (hf : s.model.announce_changed = some f) :
    count_announce_changed (weather_app_main_window_view_model_announce_changed s).trace =
      count_announce_changed s.trace + 1 := by
  unfold weather_app_main_window_view_model_announce_changed
  rw [hf]
  simp only [count_announce_changed_append]
  rfl

theorem weather_app_resources_get_icon_count (trace : List Event) (icon : WeatherAppIcon) :
    count_announce_changed (weather_app_resources_get_icon trace icon).2 =
      count_announce_changed trace := by
  cases icon <;>
  simp [weather_app_resources_get_icon, gdraw_command_image_create_with_resource,
    count_announce_changed_append, count_announce_changed]

theorem weather_app_view_model_set_icon_count (s : ViewModelState)
    (f : WeatherAppMainWindowViewModelFunc) (hf : s.model.announce_changed = some f)
    (image : Option GDrawCommandImage) :
    count_announce_changed (weather_app_view_model_set_icon s image).trace =
      count_announce_changed s.trace + 1 := by
  unfold weather_app_view_model_set_icon
  dsimp only
  rw [announce_changed_count _ f (by exact hf)]
  simp [count_announce_changed_append, count_announce_changed]

theorem weather_app_view_model_fill_colors_count (s : ViewModelState)
    (f : WeatherAppMainWindowViewModelFunc) (hf : s.model.announce_changed = some f)
    (color : GColor) :
    count_announce_changed (weather_app_view_model_fill_colors s color).trace =
      count_announce_changed s.trace + 1 := by
  unfold weather_app_view_model_fill_colors
  dsimp only
  rw [announce_changed_count _ f (by exact hf)]

/-- With a registered callback, `weather_app_view_model_fill_all` invokes it
four times. -/
theorem weather_app_view_model_fill_all_count (s : ViewModelState)
    (f : WeatherAppMainWindowViewModelFunc) (hf : s.model.announce_changed = some f)
    (data_point : DataPointRef) (dp : WeatherAppDataPoint) (h : data_point.deref = some dp) :
    ∃ s', weather_app_view_model_fill_all s data_point = some s' ∧
      count_announce_changed s'.trace = count_announce_changed s.trace + 4 := by
  obtain ⟨s', hs'⟩ : ∃ s', weather_app_view_model_fill_all s data_point = some s' := by
    simp [weather_app_view_model_fill_all, weather_app_view_model_fill_strings_and_pagination,
      weather_app_data_point_create_icon, weather_app_data_point_color,
      weather_app_data_point_view_model_numbers, h]
  have hs := hs'
  simp only [weather_app_view_model_fill_all, weather_app_view_model_fill_strings_and_pagination,
      weather_app_data_point_create_icon, weather_app_data_point_color,
      weather_app_data_point_view_model_numbers, h, Option.bind_eq_bind, Option.some_bind,
      Option.pure_def, Option.some.injEq] at hs
  refine ⟨s', hs', ?_⟩
  rw [← hs]
  clear hs hs'
  rw [announce_changed_count _ f (by
    simp only [announce_changed_model, weather_view_model_fill_numbers,
      weather_app_view_model_set_highlow, weather_app_view_model_set_temperature,
      weather_app_view_model_fill_colors, weather_app_view_model_set_icon, hf])]
  have e1 : ∀ (t : ViewModelState) (n : WeatherDataViewNumbers),
      (weather_view_model_fill_numbers t n).trace = t.trace := fun _ _ => rfl
  rw [e1, weather_app_view_model_fill_colors_count _ f (by
    simp only [announce_changed_model, weather_app_view_model_set_icon, hf]),
    weather_app_view_model_set_icon_count _ f (by simp only [announce_changed_model, hf]),
    weather_app_resources_get_icon_count, announce_changed_count _ f (by exact hf)]

theorem weather_app_view_model_fill_strings_and_pagination_count (s : ViewModelState)
    (f : WeatherAppMainWindowViewModelFunc) (hf : s.model.announce_changed = some f)
    (data_point : DataPointRef) (dp : WeatherAppDataPoint) (h : data_point.deref = some dp) :
    ∃ s', weather_app_view_model_fill_strings_and_pagination s data_point = some s' ∧
      count_announce_changed s'.trace = count_announce_changed s.trace + 1 := by
  obtain ⟨s', hs'⟩ :
      ∃ s', weather_app_view_model_fill_strings_and_pagination s data_point = some s' := by
    simp [weather_app_view_model_fill_strings_and_pagination, h]
  have hs := hs'
  simp only [weather_app_view_model_fill_strings_and_pagination, h, Option.bind_eq_bind,
    Option.some_bind, Option.pure_def, Option.some.injEq] at hs
  refine ⟨s', hs', ?_⟩
  rw [← hs, announce_changed_count _ f (by exact hf)]

/-- C10, as stated, fails: on a model with the callback `view_model_changed`
registered, filling it from the first record invokes the callback four times,
not once. -/
theorem C10_counterexample :
    (weather_app_view_model_fill_all
        ⟨{ memset_0 with announce_changed := some .view_model_changed }, []⟩
        (weather_app_data_point_at 0)).map (fun s => count_announce_changed s.trace) = some 4 ∧
      (weather_app_view_model_fill_all
        ⟨{ memset_0 with announce_changed := some .view_model_changed }, []⟩
        (weather_app_data_point_at 0)).map (fun s => count_announce_changed s.trace) ≠ some 1 := by
  decide

/-- C10, amended: for every view model with a registered callback and every data
point of the store, `weather_app_view_model_fill_all` returns and invokes the
callback exactly four times: once in
`weather_app_view_model_fill_strings_and_pagination`, once in
`weather_app_view_model_set_icon`, once in `weather_app_view_model_fill_colors`
(`weather_view_model_fill_numbers` invokes nothing) and once at its end. -/
theorem C10_fill_all_announces (s : ViewModelState) (f : WeatherAppMainWindowViewModelFunc)
    (hf : s.model.announce_changed = some f) (i : Int) (h0 : 0 ≤ i)
    (h1 : i < weather_app_num_data_points) :
    (∃ s', weather_app_view_model_fill_all s (weather_app_data_point_at i) = some s' ∧
      count_announce_changed s'.trace = count_announce_changed s.trace + 4) ∧
    (∃ s', weather_app_view_model_fill_strings_and_pagination s (weather_app_data_point_at i) =
        some s' ∧
      count_announce_changed s'.trace = count_announce_changed s.trace + 1) ∧
    (∀ image, count_announce_changed (weather_app_view_model_set_icon s image).trace =
      count_announce_changed s.trace + 1) ∧
    (∀ color, count_announce_changed (weather_app_view_model_fill_colors s color).trace =
      count_announce_changed s.trace + 1) ∧
    (∀ numbers, count_announce_changed (weather_view_model_fill_numbers s numbers).trace =
      count_announce_changed s.trace) := by
  obtain ⟨dp, hdp, _⟩ := deref_weather_app_data_point_at h0 h1
  exact ⟨weather_app_view_model_fill_all_count s f hf _ dp hdp,
    weather_app_view_model_fill_strings_and_pagination_count s f hf _ dp hdp,
    fun image => weather_app_view_model_set_icon_count s f hf image,
    fun color => weather_app_view_model_fill_colors_count s f hf color,
    fun _ => rfl⟩

theorem C10_fill_all_announces_witness :
    (∃ s', weather_app_view_model_fill_all
        ⟨{ memset_0 with announce_changed := some .view_model_changed }, []⟩
        (weather_app_data_point_at 0) = some s' ∧
      count_announce_changed s'.trace = count_announce_changed [] + 4) ∧
    (∃ s', weather_app_view_model_fill_strings_and_pagination
        ⟨{ memset_0 with announce_changed := some .view_model_changed }, []⟩
        (weather_app_data_point_at 0) = some s' ∧
      count_announce_changed s'.trace = count_announce_changed [] + 1) ∧
    (∀ image, count_announce_changed (weather_app_view_model_set_icon
        ⟨{ memset_0 with announce_changed := some .view_model_changed }, []⟩ image).trace =
      count_announce_changed [] + 1) ∧
    (∀ color, count_announce_changed (weather_app_view_model_fill_colors
        ⟨{ memset_0 with announce_changed := some .view_model_changed }, []⟩ color).trace =
      count_announce_changed [] + 1) ∧
    (∀ numbers, count_announce_changed (weather_view_model_fill_numbers
        ⟨{ memset_0 with announce_changed := some .view_model_changed }, []⟩ numbers).trace =
      count_announce_changed []) :=
  C10_fill_all_announces ⟨{ memset_0 with announce_changed := some .view_model_changed }, []⟩
    .view_model_changed rfl 0 (by decide) (by decide)

/-! ## Strings and pagination -/

/-- What `weather_app_view_model_fill_strings_and_pagination` does for a data
point that resolves to the record `dp`: it returns, writes the two strings and
the pagination, leaves every other field as it was, and announces the change. -/
theorem weather_app_view_model_fill_strings_and_pagination_model (s : ViewModelState)
    (data_point : DataPointRef) (dp : WeatherAppDataPoint) (h : data_point.deref = some dp) :
    ∃ s', weather_app_view_model_fill_strings_and_pagination s data_point = some s' ∧
      s'.model =
        { s.model with
          city := some dp.city,
          description := some dp.description,
          pagination :=
            { idx := wrap16 (1 + weather_app_index_of_data_point data_point),
              num := wrap16 weather_app_num_data_points,
              text := snprintf 8
                (fmt_d (wrap16 (1 + weather_app_index_of_data_point data_point)) ++ cstr "/" ++
                  fmt_d (wrap16 weather_app_num_data_points)) } } := by
  obtain ⟨s', hs'⟩ :
      ∃ s', weather_app_view_model_fill_strings_and_pagination s data_point = some s' := by
    simp [weather_app_view_model_fill_strings_and_pagination, h]
  have hs := hs'
  simp only [weather_app_view_model_fill_strings_and_pagination, h, Option.bind_eq_bind,
    Option.some_bind, Option.pure_def, Option.some.injEq] at hs
  refine ⟨s', hs', ?_⟩
  rw [← hs, announce_changed_model]

/-- C11: for every valid index `i` of the 4-record store and every prior state,
`weather_app_view_model_fill_strings_and_pagination(model, at(i))` returns and
sets `pagination.idx = i + 1`, `pagination.num = 4`, `pagination.text` to exactly
`<i+1>/4` (`2/4` for index 1, `4/4` for index 3), and city and description to
those of `at(i)`. -/
theorem C11_strings_and_pagination (s : ViewModelState) (i : Int) (h0 : 0 ≤ i)
    (h1 : i < weather_app_num_data_points) :
    ∃ dp s', (weather_app_data_point_at i).deref = some dp ∧
      s_data_points[i.toNat]? = some dp ∧
      weather_app_view_model_fill_strings_and_pagination s (weather_app_data_point_at i) =
        some s' ∧
      s'.model.pagination.idx = i + 1 ∧
      s'.model.pagination.num = 4 ∧
      s'.model.pagination.text = fmt_d (i + 1) ++ cstr "/" ++ cstr "4" ∧
      (i = 1 → s'.model.pagination.text = cstr "2/4") ∧
      (i = 3 → s'.model.pagination.text = cstr "4/4") ∧
      s'.model.city = some dp.city ∧
      s'.model.description = some dp.description := by
  obtain ⟨dp, hdp, hget⟩ := deref_weather_app_data_point_at h0 h1
  obtain ⟨s', hs', hm⟩ :=
    weather_app_view_model_fill_strings_and_pagination_model s (weather_app_data_point_at i) dp hdp
  obtain ⟨p1, p2, p3⟩ := store_pagination h0 h1
  rw [p1, p2, p3] at hm
  have ht : s'.model.pagination.text = fmt_d (i + 1) ++ cstr "/" ++ cstr "4" := by rw [hm]
  refine ⟨dp, s', hdp, hget, hs', by rw [hm], by rw [hm], ht, fun h => ?_, fun h => ?_,
    by rw [hm], by rw [hm]⟩
  · rw [ht, h]
    decide
  · rw [ht, h]
    decide

theorem C11_strings_and_pagination_witness :
    ∃ dp s', (weather_app_data_point_at 1).deref = some dp ∧
      s_data_points[(1 : Int).toNat]? = some dp ∧
      weather_app_view_model_fill_strings_and_pagination ⟨memset_0, []⟩
        (weather_app_data_point_at 1) = some s' ∧
      s'.model.pagination.idx = 1 + 1 ∧
      s'.model.pagination.num = 4 ∧
      s'.model.pagination.text = fmt_d (1 + 1) ++ cstr "/" ++ cstr "4" ∧
      ((1 : Int) = 1 → s'.model.pagination.text = cstr "2/4") ∧
      ((1 : Int) = 3 → s'.model.pagination.text = cstr "4/4") ∧
      s'.model.city = some dp.city ∧
      s'.model.description = some dp.description :=
  C11_strings_and_pagination ⟨memset_0, []⟩ 1 (by decide) (by decide)


/-! ## Interpolation -/

/-- The scaled step of a non-negative delta lies between zero and the delta and
grows with the progress. -/
theorem scaled_nonneg {d n : Int} (hd : 0 ≤ d) (hn0 : 0 ≤ n) (hn : n ≤ 65535) :
    0 ≤ (d * n).tdiv 65535 ∧ (d * n).tdiv 65535 ≤ d := by
  have h0 : 0 ≤ d * n := Int.mul_nonneg hd hn0
  have h1 : d * n ≤ d * 65535 := Int.mul_le_mul_of_nonneg_left hn hd
  rw [Int.tdiv_eq_ediv h0 (by decide)]
  generalize d * n = x at h0 h1
  omega

theorem scaled_mono {d n1 n2 : Int} (hd : 0 ≤ d) (hn0 : 0 ≤ n1) (h12 : n1 ≤ n2) :
    (d * n1).tdiv 65535 ≤ (d * n2).tdiv 65535 := by
  have h0 : 0 ≤ d * n1 := Int.mul_nonneg hd hn0
  have h1 : d * n1 ≤ d * n2 := Int.mul_le_mul_of_nonneg_left h12 hd
  rw [Int.tdiv_eq_ediv h0 (by decide), Int.tdiv_eq_ediv (le_trans h0 h1) (by decide)]
  generalize d * n1 = x at h0 h1
  generalize d * n2 = y at h1
  omega

theorem scaled_neg (d n : Int) : (d * n).tdiv 65535 = -((-d * n).tdiv 65535) := by
  rw [Int.neg_mul, Int.neg_tdiv, Int.neg_neg]

theorem isInt32_scaled {d n : Int} (h1 : -32768 ≤ d) (h2 : d ≤ 32768) (hn0 : 0 ≤ n)
    (hn : n ≤ 65535) : isInt32 (d * n) := by
  unfold isInt32
  constructor
  · nlinarith
  · nlinarith

/-- The scaled step of a delta lies between zero and the delta. -/
theorem scaled_between {d n : Int} (hn0 : 0 ≤ n) (hn : n ≤ 65535) :
    (0 ≤ d → 0 ≤ (d * n).tdiv 65535 ∧ (d * n).tdiv 65535 ≤ d) ∧
      (d ≤ 0 → d ≤ (d * n).tdiv 65535 ∧ (d * n).tdiv 65535 ≤ 0) := by
  constructor
  · intro hd
    exact scaled_nonneg hd hn0 hn
  · intro hd
    have := scaled_nonneg (d := -d) (by omega) hn0 hn
    rw [scaled_neg]
    omega

/-- Within the stated range `distance_interpolate` is the exact formula, without
wrapping, and its value lies between `from` and `to`. -/
theorem distance_interpolate_eq {n a b : Int} (ha : isInt16 a) (hb : isInt16 b)
    (hd : |b - a| ≤ 32767) (hn0 : 0 ≤ n) (hn : n ≤ ANIMATION_NORMALIZED_MAX) :
    distance_interpolate n a b = a + (n * (b - a)).tdiv ANIMATION_NORMALIZED_MAX ∧
      (a ≤ b → a ≤ distance_interpolate n a b ∧ distance_interpolate n a b ≤ b) ∧
      (b ≤ a → b ≤ distance_interpolate n a b ∧ distance_interpolate n a b ≤ a) := by
  unfold isInt16 at ha hb
  unfold ANIMATION_NORMALIZED_MAX at hn ⊢
  rw [abs_le] at hd
  have h32 : isInt32 (n * (b - a)) := by
    rw [Int.mul_comm]
    exact isInt32_scaled (by omega) (by omega) hn0 hn
  have hbt := scaled_between (d := b - a) hn0 hn
  rw [Int.mul_comm] at hbt
  have key : distance_interpolate n a b = a + (n * (b - a)).tdiv 65535 := by
    unfold distance_interpolate ANIMATION_NORMALIZED_MAX
    rw [wrap32_of_isInt32 h32]
    apply wrap16_of_isInt16
    unfold isInt16
    rcases le_total 0 (b - a) with h | h
    · have := hbt.1 h
      omega
    · have := hbt.2 h
      omega
  refine ⟨key, fun h => ?_, fun h => ?_⟩
  · rw [key]
    have := hbt.1 (by omega)
    omega
  · rw [key]
    have := hbt.2 (by omega)
    omega

theorem distance_interpolate_zero {a b : Int} (ha : isInt16 a) :
    distance_interpolate 0 a b = a := by
  unfold distance_interpolate
  simp [wrap32, wrap16_of_isInt16 ha]

theorem distance_interpolate_max {a b : Int} (hb : isInt16 b) (hd : |b - a| ≤ 32767) :
    distance_interpolate ANIMATION_NORMALIZED_MAX a b = b := by
  unfold distance_interpolate
  have h32 : isInt32 (ANIMATION_NORMALIZED_MAX * (b - a)) := by
    rw [abs_le] at hd
    unfold isInt32 ANIMATION_NORMALIZED_MAX
    omega
  rw [wrap32_of_isInt32 h32, Int.mul_comm, Int.mul_tdiv_cancel _ (by decide)]
  have e : a + (b - a) = b := by omega
  rw [e]
  exact wrap16_of_isInt16 hb

theorem get_animated_numbers_set_animated_numbers (s : ViewModelState)
    (numbers : WeatherDataViewNumbers) :
    get_animated_numbers (set_animated_numbers s numbers).model = numbers := by
  unfold set_animated_numbers
  rw [announce_changed_model]
  rfl

/-- What one update of the numeric counter writes, for a progress in the
normalized range. -/
theorem property_animation_update_animated_numbers_eq (s : ViewModelState)
    (from_value to_value : WeatherDataViewNumbers) (duration : Nat) (curve : AnimationCurve)
    (reverse : Bool) (handlers : AnimationHandlers) (n : Int)
    (hn0 : 0 ≤ n) (hn : n ≤ ANIMATION_NORMALIZED_MAX) :
    ∃ s', property_animation_update_animated_numbers s
        (Animation.property (.s_animated_numbers_implementation from_value to_value)
          duration curve reverse handlers) n = some s' ∧
      get_animated_numbers s'.model =
        { temperature := distance_interpolate n from_value.temperature to_value.temperature,
          high := distance_interpolate n from_value.high to_value.high,
          low := distance_interpolate n from_value.low to_value.low } := by
  have hw : wrap32 n = n := by
    unfold ANIMATION_NORMALIZED_MAX at hn
    exact wrap32_of_isInt32 (by unfold isInt32; omega)
  refine ⟨_, rfl, ?_⟩
  rw [get_animated_numbers_set_animated_numbers, hw]


/-- C12: for every start and target triple of 16-bit numbers whose per-field
difference has magnitude at most 32767 and every progress `n` in
`[0, ANIMATION_NORMALIZED_MAX]`, `property_animation_update_animated_numbers`
returns and writes, field by field,
`from + (n * (to - from)) / ANIMATION_NORMALIZED_MAX` (truncating division): the
start triple at progress 0, the target triple at `ANIMATION_NORMALIZED_MAX`; from
`(68, 70, 60)` it reaches `(100, 100, 80)`. The animation built by
`weather_app_create_view_model_animation_numbers` starts at the view model's
current numbers and targets the next data point's `(current, high, low)`. -/
theorem C12_animated_numbers (s : ViewModelState) (from_value to_value : WeatherDataViewNumbers)
    (duration : Nat) (curve : AnimationCurve) (reverse : Bool) (handlers : AnimationHandlers)
    (n j : Int)
    (hft : isInt16 from_value.temperature) (hfh : isInt16 from_value.high)
    (hfl : isInt16 from_value.low)
    (htt : isInt16 to_value.temperature) (hth : isInt16 to_value.high)
    (htl : isInt16 to_value.low)
    (hdt : |to_value.temperature - from_value.temperature| ≤ 32767)
    (hdh : |to_value.high - from_value.high| ≤ 32767)
    (hdl : |to_value.low - from_value.low| ≤ 32767)
    (hn0 : 0 ≤ n) (hn : n ≤ ANIMATION_NORMALIZED_MAX)
    (hj0 : 0 ≤ j) (hj1 : j < weather_app_num_data_points) :
    (∃ s', property_animation_update_animated_numbers s
        (Animation.property (.s_animated_numbers_implementation from_value to_value)
          duration curve reverse handlers) n = some s' ∧
      get_animated_numbers s'.model =
        { temperature := from_value.temperature +
            (n * (to_value.temperature - from_value.temperature)).tdiv ANIMATION_NORMALIZED_MAX,
          high := from_value.high +
            (n * (to_value.high - from_value.high)).tdiv ANIMATION_NORMALIZED_MAX,
          low := from_value.low +
            (n * (to_value.low - from_value.low)).tdiv ANIMATION_NORMALIZED_MAX }) ∧
    (∃ s', property_animation_update_animated_numbers s
        (Animation.property (.s_animated_numbers_implementation from_value to_value)
          duration curve reverse handlers) 0 = some s' ∧
      get_animated_numbers s'.model = from_value) ∧
    (∃ s', property_animation_update_animated_numbers s
        (Animation.property (.s_animated_numbers_implementation from_value to_value)
          duration curve reverse handlers) ANIMATION_NORMALIZED_MAX = some s' ∧
      get_animated_numbers s'.model = to_value) ∧
    (∃ s', property_animation_update_animated_numbers s
        (Animation.property (.s_animated_numbers_implementation
          { temperature := 68, high := 70, low := 60 }
          { temperature := 100, high := 100, low := 80 })
          duration curve reverse handlers) ANIMATION_NORMALIZED_MAX = some s' ∧
      get_animated_numbers s'.model = { temperature := 100, high := 100, low := 80 }) ∧
    (∃ dp, (weather_app_data_point_at j).deref = some dp ∧
      weather_app_create_view_model_animation_numbers s.model (weather_app_data_point_at j) =
        some (Animation.property
          (.s_animated_numbers_implementation (get_animated_numbers s.model)
            { temperature := dp.current, high := dp.high, low := dp.low })
          250 AnimationCurveEaseInOut false no_handlers)) := by
  have hmax0 : (0 : Int) ≤ ANIMATION_NORMALIZED_MAX := by decide
  refine ⟨?_, ?_, ?_, ?_, ?_⟩
  · obtain ⟨s', hs', hm⟩ := property_animation_update_animated_numbers_eq s from_value to_value
      duration curve reverse handlers n hn0 hn
    refine ⟨s', hs', ?_⟩
    rw [hm, (distance_interpolate_eq hft htt hdt hn0 hn).1,
      (distance_interpolate_eq hfh hth hdh hn0 hn).1,
      (distance_interpolate_eq hfl htl hdl hn0 hn).1]
  · obtain ⟨s', hs', hm⟩ := property_animation_update_animated_numbers_eq s from_value to_value
      duration curve reverse handlers 0 (le_refl 0) hmax0
    refine ⟨s', hs', ?_⟩
    rw [hm, distance_interpolate_zero hft, distance_interpolate_zero hfh,
      distance_interpolate_zero hfl]
  · obtain ⟨s', hs', hm⟩ := property_animation_update_animated_numbers_eq s from_value to_value
      duration curve reverse handlers ANIMATION_NORMALIZED_MAX hmax0 (le_refl _)
    refine ⟨s', hs', ?_⟩
    rw [hm, distance_interpolate_max htt hdt, distance_interpolate_max hth hdh,
      distance_interpolate_max htl hdl]
  · obtain ⟨s', hs', hm⟩ := property_animation_update_animated_numbers_eq s
      { temperature := 68, high := 70, low := 60 } { temperature := 100, high := 100, low := 80 }
      duration curve reverse handlers ANIMATION_NORMALIZED_MAX hmax0 (le_refl _)
    refine ⟨s', hs', ?_⟩
    rw [hm]
    decide
  · obtain ⟨dp, hdp, _⟩ := deref_weather_app_data_point_at hj0 hj1
    refine ⟨dp, hdp, ?_⟩
    simp [weather_app_create_view_model_animation_numbers,
      weather_app_data_point_view_model_numbers, hdp, property_animation_create]

theorem C12_animated_numbers_witness :
    (∃ s', property_animation_update_animated_numbers ⟨memset_0, []⟩
        (Animation.property (.s_animated_numbers_implementation
          { temperature := 68, high := 70, low := 60 }
          { temperature := 100, high := 100, low := 80 })
          520 AnimationCurveEaseInOut false no_handlers) 32768 = some s' ∧
      get_animated_numbers s'.model =
        { temperature := (68 : Int) +
            (32768 * ((100 : Int) - 68)).tdiv ANIMATION_NORMALIZED_MAX,
          high := (70 : Int) + (32768 * ((100 : Int) - 70)).tdiv ANIMATION_NORMALIZED_MAX,
          low := (60 : Int) + (32768 * ((80 : Int) - 60)).tdiv ANIMATION_NORMALIZED_MAX }) ∧
    (∃ s', property_animation_update_animated_numbers ⟨memset_0, []⟩
        (Animation.property (.s_animated_numbers_implementation
          { temperature := 68, high := 70, low := 60 }
          { temperature := 100, high := 100, low := 80 })
          520 AnimationCurveEaseInOut false no_handlers) 0 = some s' ∧
      get_animated_numbers s'.model = { temperature := 68, high := 70, low := 60 }) ∧
    (∃ s', property_animation_update_animated_numbers ⟨memset_0, []⟩
        (Animation.property (.s_animated_numbers_implementation
          { temperature := 68, high := 70, low := 60 }
          { temperature := 100, high := 100, low := 80 })
          520 AnimationCurveEaseInOut false no_handlers) ANIMATION_NORMALIZED_MAX = some s' ∧
      get_animated_numbers s'.model = { temperature := 100, high := 100, low := 80 }) ∧
    (∃ s', property_animation_update_animated_numbers ⟨memset_0, []⟩
        (Animation.property (.s_animated_numbers_implementation
          { temperature := 68, high := 70, low := 60 }
          { temperature := 100, high := 100, low := 80 })
          520 AnimationCurveEaseInOut false no_handlers) ANIMATION_NORMALIZED_MAX = some s' ∧
      get_animated_numbers s'.model = { temperature := 100, high := 100, low := 80 }) ∧
    (∃ dp, (weather_app_data_point_at 1).deref = some dp ∧
      weather_app_create_view_model_animation_numbers memset_0 (weather_app_data_point_at 1) =
        some (Animation.property
          (.s_animated_numbers_implementation (get_animated_numbers memset_0)
            { temperature := dp.current, high := dp.high, low := dp.low })
          250 AnimationCurveEaseInOut false no_handlers)) :=
  C12_animated_numbers ⟨memset_0, []⟩ { temperature := 68, high := 70, low := 60 }
    { temperature := 100, high := 100, low := 80 } 520 AnimationCurveEaseInOut false no_handlers
    32768 1 (by decide) (by decide) (by decide) (by decide) (by decide) (by decide)
    (by decide) (by decide) (by decide) (by decide) (by decide) (by decide) (by decide)


/-! ## The attraction along the way -/

/-- For a progress in the normalized range and a representable target the
attraction is the exact formula, without wrapping. -/
theorem prv_int_attract_to_eq {i b n : Int} (hi : isInt16 i) (ht : isInt16 (i + delta i b))
    (hn0 : 0 ≤ n) (hn : n ≤ ANIMATION_NORMALIZED_MAX) :
    prv_int_attract_to i b n = i + (delta i b * n).tdiv 65535 := by
  have hd := isInt16_delta i b
  unfold isInt16 at hi ht hd
  unfold ANIMATION_NORMALIZED_MAX at hn
  have h32 : isInt32 (delta i b * n) := isInt32_scaled (by omega) (by omega) hn0 hn
  have hbt := scaled_between (d := delta i b) hn0 hn
  unfold prv_int_attract_to ANIMATION_NORMALIZED_MAX
  rw [wrap32_of_isInt32 h32]
  apply wrap16_of_isInt16
  unfold isInt16
  rcases le_total 0 (delta i b) with h | h
  · have := hbt.1 h
    omega
  · have := hbt.2 h
    omega

/-- The target of the attraction of one axis is `1` or `bounds - 1`. -/
theorem target_cases {i b : Int} (h0 : isInt16 (1 - i)) (hB : isInt16 ((b - 1) - i)) :
    i + delta i b = 1 ∨ i + delta i b = b - 1 := by
  unfold delta
  split
  · left
    unfold delta_0
    rw [show (0 : Int) + 1 - i = 1 - i by omega, wrap16_of_isInt16 h0]
    omega
  · right
    unfold delta_b
    rw [wrap16_of_isInt16 hB]
    omega

/-- C17: for every `int16_t` coordinate `i` and dimension `b` whose upper
target `b - 1` and two deltas are representable in 16 bits, and every progress in
`[0, ANIMATION_NORMALIZED_MAX]`, `prv_int_attract_to(i, b, n)` lies between `i`
and the chosen target (`1` or `b - 1`) inclusive, and for `n1 <= n2` the result
at `n2` is at least as close to the target as the result at `n1`. -/
theorem C17_attract_monotone (i b n1 n2 : Int) (hi : isInt16 i) (_hb : isInt16 b)
    (hb1 : isInt16 (b - 1)) (h0 : isInt16 (1 - i)) (hB : isInt16 ((b - 1) - i))
    (hn1 : 0 ≤ n1) (h12 : n1 ≤ n2) (hn2 : n2 ≤ ANIMATION_NORMALIZED_MAX) :
    (i + delta i b = 1 ∨ i + delta i b = b - 1) ∧
      (i ≤ i + delta i b →
        i ≤ prv_int_attract_to i b n2 ∧ prv_int_attract_to i b n2 ≤ i + delta i b) ∧
      (i + delta i b ≤ i →
        i + delta i b ≤ prv_int_attract_to i b n2 ∧ prv_int_attract_to i b n2 ≤ i) ∧
      |(i + delta i b) - prv_int_attract_to i b n2| ≤
        |(i + delta i b) - prv_int_attract_to i b n1| := by
  have htc := target_cases h0 hB
  have ht : isInt16 (i + delta i b) := by
    unfold isInt16 at hb1 ⊢
    rcases htc with h | h <;> omega
  have hM : n2 ≤ 65535 := hn2
  have e1 := prv_int_attract_to_eq hi ht hn1 (le_trans h12 hn2)
  have e2 := prv_int_attract_to_eq hi ht (le_trans hn1 h12) hn2
  have b1 := scaled_between (d := delta i b) hn1 (le_trans h12 hM)
  have b2 := scaled_between (d := delta i b) (le_trans hn1 h12) hM
  refine ⟨htc, fun h => ?_, fun h => ?_, ?_⟩
  · have := b2.1 (by omega)
    omega
  · have := b2.2 (by omega)
    omega
  · rw [e1, e2]
    rcases le_total 0 (delta i b) with h | h
    · have m := scaled_mono h hn1 h12
      have := b1.1 h
      have := b2.1 h
      rw [abs_of_nonneg (by omega), abs_of_nonneg (by omega)]
      omega
    · have m := scaled_mono (d := -delta i b) (by omega) hn1 h12
      have s1 := scaled_neg (delta i b) n1
      have s2 := scaled_neg (delta i b) n2
      have := b1.2 h
      have := b2.2 h
      rw [abs_of_nonpos (by omega), abs_of_nonpos (by omega)]
      omega

theorem C17_attract_monotone_witness :
    ((3 : Int) + delta 3 10 = 1 ∨ (3 : Int) + delta 3 10 = 10 - 1) ∧
      ((3 : Int) ≤ 3 + delta 3 10 →
        3 ≤ prv_int_attract_to 3 10 40000 ∧ prv_int_attract_to 3 10 40000 ≤ 3 + delta 3 10) ∧
      ((3 : Int) + delta 3 10 ≤ 3 →
        3 + delta 3 10 ≤ prv_int_attract_to 3 10 40000 ∧ prv_int_attract_to 3 10 40000 ≤ 3) ∧
      |((3 : Int) + delta 3 10) - prv_int_attract_to 3 10 40000| ≤
        |((3 : Int) + delta 3 10) - prv_int_attract_to 3 10 20000| :=
  C17_attract_monotone 3 10 20000 40000 (by decide) (by decide) (by decide) (by decide)
    (by decide) (by decide) (by decide) (by decide)


/-! ## Ownership of the icon -/

theorem released_append (a b : List Event) : released (a ++ b) = released a ++ released b := by
  simp [released, List.filterMap_append]

theorem released_announce_changed (s : ViewModelState) :
    released (weather_app_main_window_view_model_announce_changed s).trace = released s.trace := by
  unfold weather_app_main_window_view_model_announce_changed
  split
  · simp [released_append, released]
  · rfl

/-- The icon setter releases the asset held before and leaves the new one
held. -/
theorem weather_app_view_model_set_icon_releases (s : ViewModelState) (a : GDrawCommandImage)
    (b : Option GDrawCommandImage) (h : s.model.icon.draw_command = some a) :
    released (weather_app_view_model_set_icon s b).trace = released s.trace ++ [a] ∧
      (weather_app_view_model_set_icon s b).model.icon.draw_command = b := by
  unfold weather_app_view_model_set_icon
  dsimp only
  rw [released_announce_changed, announce_changed_model, h]
  simp [released_append, released]

/-- Tearing the view model down releases the asset held and leaves none. -/
theorem weather_app_view_model_deinit_releases (s : ViewModelState) (a : GDrawCommandImage)
    (h : s.model.icon.draw_command = some a) :
    released (weather_app_view_model_deinit s).trace = released s.trace ++ [a] ∧
      (weather_app_view_model_deinit s).model.icon.draw_command = none :=
  weather_app_view_model_set_icon_releases s a none h

theorem released_weather_app_resources_get_icon (trace : List Event) (icon : WeatherAppIcon) :
    released (weather_app_resources_get_icon trace icon).2 = released trace := by
  cases icon <;>
  simp [weather_app_resources_get_icon, gdraw_command_image_create_with_resource,
    released_append, released]

/-- The bulk fill releases nothing: whatever asset the model held, the assets
released after `weather_app_view_model_fill_all` are those released before. -/
theorem weather_app_view_model_fill_all_releases_nothing (s : ViewModelState)
    (data_point : DataPointRef) (dp : WeatherAppDataPoint) (h : data_point.deref = some dp) :
    ∃ s', weather_app_view_model_fill_all s data_point = some s' ∧
      released s'.trace = released s.trace := by
  obtain ⟨s', hs'⟩ : ∃ s', weather_app_view_model_fill_all s data_point = some s' := by
    simp [weather_app_view_model_fill_all, weather_app_view_model_fill_strings_and_pagination,
      weather_app_data_point_create_icon, weather_app_data_point_color,
      weather_app_data_point_view_model_numbers, h]
  have hs := hs'
  simp only [weather_app_view_model_fill_all, weather_app_view_model_fill_strings_and_pagination,
      weather_app_data_point_create_icon, weather_app_data_point_color,
      weather_app_data_point_view_model_numbers, h, Option.bind_eq_bind, Option.some_bind,
      Option.pure_def, Option.some.injEq] at hs
  refine ⟨s', hs', ?_⟩
  rw [← hs]
  clear hs hs'
  have e1 : ∀ (t : ViewModelState) (n : WeatherDataViewNumbers),
      (weather_view_model_fill_numbers t n).trace = t.trace := fun _ _ => rfl
  have e2 : ∀ (t : ViewModelState) (c : GColor),
      released (weather_app_view_model_fill_colors t c).trace = released t.trace := by
    intro t c
    unfold weather_app_view_model_fill_colors
    dsimp only
    rw [released_announce_changed]
  have e3 : ∀ (t : ViewModelState) (img : Option GDrawCommandImage),
      t.model.icon.draw_command = none →
      released (weather_app_view_model_set_icon t img).trace = released t.trace := by
    intro t img ht
    unfold weather_app_view_model_set_icon
    dsimp only
    rw [released_announce_changed, ht]
    simp [released_append, released]
  rw [released_announce_changed, e1, e2, e3 _ _ (by rw [announce_changed_model]; rfl),
    released_weather_app_resources_get_icon, released_announce_changed]

/-- C13, the defect: on a model that holds the asset `a` (sunny day, allocation
0), `weather_app_view_model_fill_all` returns with the new data point's icon
installed, but `a` has not been released: the model was zeroed before the icon
setter ran, so `free` was called on the null pointer. The asset `a` is then
neither held nor released. -/
theorem C13_fill_all_leaks :
    (weather_app_view_model_fill_all
      ⟨{ memset_0 with icon := ⟨some ⟨RESOURCE_ID_ICON_SUNNY_DAY, 0⟩, 0⟩ },
        [Event.gdraw_command_image_create_with_resource RESOURCE_ID_ICON_SUNNY_DAY
          (some ⟨RESOURCE_ID_ICON_SUNNY_DAY, 0⟩)]⟩
      (weather_app_data_point_at 0)).map
        (fun s => (s.model.icon.draw_command, released s.trace, s.trace)) =
      some (some ⟨RESOURCE_ID_ICON_LIGHT_RAIN, 1⟩, [],
        [Event.gdraw_command_image_create_with_resource RESOURCE_ID_ICON_SUNNY_DAY
          (some ⟨RESOURCE_ID_ICON_SUNNY_DAY, 0⟩),
         Event.gdraw_command_image_create_with_resource RESOURCE_ID_ICON_LIGHT_RAIN
          (some ⟨RESOURCE_ID_ICON_LIGHT_RAIN, 1⟩),
         Event.free none]) := by
  decide


/-! ## The background blend -/

/-- C14: for every view model whose `bg_color.top` and `bg_color.bottom` both
hold the current colour and every target data point, the start handler writes
the target's colour to exactly one endpoint and nothing else: `top` when the
animation is reversed, `bottom` otherwise, the other endpoint keeping the
current colour; the stop handler sets both endpoints to the target's colour
(orange when the target's current temperature is above 90, picton blue
otherwise) whether or not the animation finished; and in the plan built by
`animation_for_scroll` the background animation is reversed exactly for paging
Down and carries both handlers with the target as context. -/
theorem C14_bg_colors (s : ViewModelState) (current : GColor) (target : DataPointRef)
    (dp : WeatherAppDataPoint) (animation : Animation) (finished : Bool)
    (data : WeatherAppData) (trace : List Event) (direction : ScrollDirection)
    (hdp : target.deref = some dp)
    (htop : s.model.bg_color.top = current) (hbottom : s.model.bg_color.bottom = current) :
    (animation_get_reverse animation = true →
      ∃ s', bg_colors_animation_started s animation target = some s' ∧
        s'.model = { s.model with bg_color := { s.model.bg_color with
          top := if dp.current > 90 then GColorOrange else GColorPictonBlue } } ∧
        s'.model.bg_color.top = (if dp.current > 90 then GColorOrange else GColorPictonBlue) ∧
        s'.model.bg_color.bottom = current) ∧
    (animation_get_reverse animation = false →
      ∃ s', bg_colors_animation_started s animation target = some s' ∧
        s'.model = { s.model with bg_color := { s.model.bg_color with
          bottom := if dp.current > 90 then GColorOrange else GColorPictonBlue } } ∧
        s'.model.bg_color.bottom = (if dp.current > 90 then GColorOrange else GColorPictonBlue) ∧
        s'.model.bg_color.top = current) ∧
    (∃ s', bg_colors_animation_stopped s animation finished target = some s' ∧
      s'.model.bg_color.top = (if dp.current > 90 then GColorOrange else GColorPictonBlue) ∧
      s'.model.bg_color.bottom = (if dp.current > 90 then GColorOrange else GColorPictonBlue)) ∧
    (∃ scroll bg icon numbers trace',
      animation_for_scroll data trace direction target =
        some (Animation.spawn [scroll, bg, icon, numbers] no_handlers, trace') ∧
      bg = Animation.property .s_bg_color_normalized_implementation 200 AnimationCurveEaseInOut
        (decide (direction = ScrollDirectionDown))
        { started := some .bg_colors_animation_started,
          stopped := some .bg_colors_animation_stopped,
          context := .data_point target } ∧
      (animation_get_reverse bg = true ↔ direction = ScrollDirectionDown)) := by
  have hc : weather_app_data_point_color target =
      some (if dp.current > 90 then GColorOrange else GColorPictonBlue) := by
    simp [weather_app_data_point_color, hdp]
  refine ⟨fun hr => ?_, fun hr => ?_, ?_, ?_⟩
  · refine ⟨_, by
      simp only [bg_colors_animation_started, hc, hr, Option.bind_eq_bind, Option.some_bind,
        Option.pure_def, if_true]
      rfl, ?_, ?_, ?_⟩
    · rw [announce_changed_model]
    · rw [announce_changed_model]
    · rw [announce_changed_model]
      exact hbottom
  · refine ⟨_, by
      simp only [bg_colors_animation_started, hc, hr, Option.bind_eq_bind, Option.some_bind,
        Option.pure_def, Bool.false_eq_true, if_false]
      rfl, ?_, ?_, ?_⟩
    · rw [announce_changed_model]
    · rw [announce_changed_model]
    · rw [announce_changed_model]
      exact htop
  · refine ⟨_, by
      simp only [bg_colors_animation_stopped, hc, Option.bind_eq_bind, Option.some_bind,
        Option.pure_def]
      rfl, ?_, ?_⟩
    · unfold weather_app_view_model_fill_colors
      rw [announce_changed_model]
    · unfold weather_app_view_model_fill_colors
      rw [announce_changed_model]
  · rw [animation_for_scroll_eq data trace direction target dp hdp]
    cases direction
    · exact ⟨_, _, _, _, _, rfl, rfl, by simp [animation_get_reverse]⟩
    · exact ⟨_, _, _, _, _, rfl, rfl, by simp [animation_get_reverse]⟩

theorem C14_bg_colors_witness :
    (animation_get_reverse (Animation.property .s_bg_color_normalized_implementation 200
        AnimationCurveEaseInOut true no_handlers) = true →
      ∃ s', bg_colors_animation_started ⟨memset_0, []⟩
          (Animation.property .s_bg_color_normalized_implementation 200
            AnimationCurveEaseInOut true no_handlers) (weather_app_data_point_at 1) = some s' ∧
        s'.model = { memset_0 with bg_color := { memset_0.bg_color with
          top := if (100 : Int) > 90 then GColorOrange else GColorPictonBlue } } ∧
        s'.model.bg_color.top = (if (100 : Int) > 90 then GColorOrange else GColorPictonBlue) ∧
        s'.model.bg_color.bottom = ⟨0⟩) ∧
    (animation_get_reverse (Animation.property .s_bg_color_normalized_implementation 200
        AnimationCurveEaseInOut true no_handlers) = false →
      ∃ s', bg_colors_animation_started ⟨memset_0, []⟩
          (Animation.property .s_bg_color_normalized_implementation 200
            AnimationCurveEaseInOut true no_handlers) (weather_app_data_point_at 1) = some s' ∧
        s'.model = { memset_0 with bg_color := { memset_0.bg_color with
          bottom := if (100 : Int) > 90 then GColorOrange else GColorPictonBlue } } ∧
        s'.model.bg_color.bottom = (if (100 : Int) > 90 then GColorOrange else GColorPictonBlue) ∧
        s'.model.bg_color.top = ⟨0⟩) ∧
    (∃ s', bg_colors_animation_stopped ⟨memset_0, []⟩
        (Animation.property .s_bg_color_normalized_implementation 200
          AnimationCurveEaseInOut true no_handlers) false (weather_app_data_point_at 1) = some s' ∧
      s'.model.bg_color.top = (if (100 : Int) > 90 then GColorOrange else GColorPictonBlue) ∧
      s'.model.bg_color.bottom = (if (100 : Int) > 90 then GColorOrange else GColorPictonBlue)) ∧
    (∃ scroll bg icon numbers trace',
      animation_for_scroll ⟨weather_app_data_point_at 1, memset_0, none⟩ [] ScrollDirectionDown
          (weather_app_data_point_at 1) =
        some (Animation.spawn [scroll, bg, icon, numbers] no_handlers, trace') ∧
      bg = Animation.property .s_bg_color_normalized_implementation 200 AnimationCurveEaseInOut
        (decide (ScrollDirectionDown = ScrollDirectionDown))
        { started := some .bg_colors_animation_started,
          stopped := some .bg_colors_animation_stopped,
          context := .data_point (weather_app_data_point_at 1) } ∧
      (animation_get_reverse bg = true ↔ ScrollDirectionDown = ScrollDirectionDown)) :=
  C14_bg_colors ⟨memset_0, []⟩ ⟨0⟩ (weather_app_data_point_at 1)
    ⟨"LOS ANGELES", "Clear throughout the day.", WEATHER_APP_ICON_SUNNY_DAY, 100, 100, 80⟩
    (Animation.property .s_bg_color_normalized_implementation 200
      AnimationCurveEaseInOut true no_handlers) false
    ⟨weather_app_data_point_at 1, memset_0, none⟩ [] ScrollDirectionDown rfl rfl rfl


/-! ## When the text is swapped -/

/-- A step that resolves lands on a record of the store. -/
theorem weather_app_data_point_delta_resolves (p : DataPointRef) (d : Int) (next : DataPointRef)
    (h : weather_app_data_point_delta p d = next) (hne : next ≠ DataPointRef.null) :
    ∃ k : Int, 0 ≤ k ∧ k < weather_app_num_data_points ∧ next = weather_app_data_point_at k := by
  unfold weather_app_data_point_delta at h
  simp only [] at h
  split at h
  · exact absurd h.symm hne
  · refine ⟨wrap32 (weather_app_index_of_data_point p + d), ?_, ?_, h.symm⟩
    · by_contra hlt
      exact hne (by
        rw [← h]
        exact weather_app_data_point_at_of_invalid (Or.inl (by omega)))
    · by_contra hge
      exact hne (by
        rw [← h]
        exact weather_app_data_point_at_of_invalid (Or.inr (by omega)))

/-- Paging with a target hands the view model to the scheduler as it was:
`ask_for_scroll` itself writes no field of it. -/
theorem ask_for_scroll_view_model (scheduler : AnimationScheduler) (s : AppState)
    (direction : ScrollDirection) (next : DataPointRef) (dp : WeatherAppDataPoint)
    (hnext : weather_app_data_point_delta s.data.data_point
      (if direction = ScrollDirectionUp then -1 else 1) = next)
    (hdp : next.deref = some dp) :
    ∃ s', ask_for_scroll scheduler s direction = some s' ∧ s'.data.data_point = next ∧
      s'.data.view_model =
        (scheduler.animation_schedule
          (spec_page_transition (get_animated_numbers s.data.view_model) s.trace direction
            next dp)
          (scheduler.animation_unschedule s.data.previous_animation
            ⟨s.data.view_model, (weather_app_resources_get_icon s.trace dp.icon).2⟩)).model := by
  have hne : next ≠ DataPointRef.null := by
    intro h
    rw [h] at hdp
    exact absurd hdp (by simp [DataPointRef.deref])
  unfold ask_for_scroll
  simp only [hnext, if_neg hne]
  rw [animation_for_scroll_eq _ _ _ _ dp hdp]
  exact ⟨_, rfl, rfl, rfl⟩

/-- No update of an animation writes the city, the description or the
pagination. -/
theorem animation_update_keeps_text (vm vm' : ViewModelState) (animation : Animation) (n : Int)
    (h : animation_update vm animation n = some vm') :
    vm'.model.city = vm.model.city ∧ vm'.model.description = vm.model.description ∧
      vm'.model.pagination = vm.model.pagination := by
  cases animation with
  | property impl duration curve reverse handlers =>
    cases impl with
    | bounds_origin layer a b =>
      simp only [animation_update, Option.some.injEq] at h
      rw [← h]
      exact ⟨rfl, rfl, rfl⟩
    | s_animated_numbers_implementation a b =>
      simp only [animation_update, property_animation_update_animated_numbers,
        Option.some.injEq] at h
      rw [← h]
      unfold set_animated_numbers
      rw [announce_changed_model]
      exact ⟨rfl, rfl, rfl⟩
    | s_bg_color_normalized_implementation =>
      simp only [animation_update, Option.some.injEq] at h
      rw [← h]
      unfold update_bg_color_normalized
      rw [announce_changed_model]
      exact ⟨rfl, rfl, rfl⟩
    | s_icon_scquare_normalized_implementation =>
      simp only [animation_update, Option.some.injEq] at h
      rw [← h]
      unfold update_icon_square_normalized
      rw [announce_changed_model]
      exact ⟨rfl, rfl, rfl⟩
  | spawn children handlers =>
    simp only [animation_update, Option.some.injEq] at h
    rw [← h]
    exact ⟨rfl, rfl, rfl⟩
  | sequence children handlers =>
    simp only [animation_update, Option.some.injEq] at h
    rw [← h]
    exact ⟨rfl, rfl, rfl⟩

/-- C15, as stated, fails: on a view model showing the first record, the stop
handler of the outbound group, called with `finished = false` (the group was
stopped before completing) for the second record, swaps city and pagination to
those of the second record. -/
theorem C15_counterexample :
    (do
      let s0 ← weather_app_view_model_fill_all ⟨memset_0, []⟩ (weather_app_data_point_at 0)
      let s1 ← after_scroll_swap_text s0
        (Animation.spawn [spec_scroll_out .city_layer (-20)]
          { started := none, stopped := some .after_scroll_swap_text,
            context := .data_point (weather_app_data_point_at 1) })
        false (weather_app_data_point_at 1)
      pure (s0.model.city, s0.model.pagination.text, s1.model.city, s1.model.pagination.text)) =
    some (some "PALO ALTO", cstr "1/4", some "LOS ANGELES", cstr "2/4") := by
  decide


/-- The handlers of the background blend and of the icon morph write neither
the city, nor the description, nor the pagination. -/
theorem other_handlers_keep_text (vm vm' : ViewModelState) (animation : Animation)
    (finished : Bool) (context : DataPointRef) (icon : Option GDrawCommandImage) :
    (bg_colors_animation_started vm animation context = some vm' →
      vm'.model.city = vm.model.city ∧ vm'.model.description = vm.model.description ∧
        vm'.model.pagination = vm.model.pagination) ∧
    (bg_colors_animation_stopped vm animation finished context = some vm' →
      vm'.model.city = vm.model.city ∧ vm'.model.description = vm.model.description ∧
        vm'.model.pagination = vm.model.pagination) ∧
    ((replace_icon_stop_handler vm animation finished icon).model.city = vm.model.city ∧
      (replace_icon_stop_handler vm animation finished icon).model.description =
        vm.model.description ∧
      (replace_icon_stop_handler vm animation finished icon).model.pagination =
        vm.model.pagination) := by
  refine ⟨fun h => ?_, fun h => ?_, ?_⟩
  · unfold bg_colors_animation_started at h
    cases hc : weather_app_data_point_color context with
    | none => simp [hc] at h
    | some color =>
      simp only [hc, Option.bind_eq_bind, Option.some_bind, Option.pure_def,
        Option.some.injEq] at h
      rw [← h, announce_changed_model]
      split <;> exact ⟨rfl, rfl, rfl⟩
  · unfold bg_colors_animation_stopped at h
    cases hc : weather_app_data_point_color context with
    | none => simp [hc] at h
    | some color =>
      simp only [hc, Option.bind_eq_bind, Option.some_bind, Option.pure_def,
        Option.some.injEq] at h
      rw [← h]
      unfold weather_app_view_model_fill_colors
      rw [announce_changed_model]
      exact ⟨rfl, rfl, rfl⟩
  · unfold replace_icon_stop_handler weather_app_view_model_set_icon
    rw [announce_changed_model]
    exact ⟨rfl, rfl, rfl⟩

/-- C15, amended: for every page request with a resolvable target,
`ask_for_scroll` switches the current data point at once and writes no field of
the view model itself (the view model it leaves is the one the scheduler makes
of the unchanged one, so with a scheduler that runs no handler city, description
and pagination still show what they showed); no update of any animation and no
handler of the background blend or of the icon morph writes city, description
or pagination; they become the target's (for the target `at(k)`: its city and
description and the pagination `(k+1, 4, "<k+1>/4")`) through
`after_scroll_swap_text`, the stop handler of the outbound group with the target
as context, whenever that group stops, whether it has run to completion
(`finished = true`) or was stopped before completing (`finished = false`). -/
theorem C15_text_swap (scheduler : AnimationScheduler) (s : AppState)
    (direction : ScrollDirection) (next : DataPointRef) (dp : WeatherAppDataPoint)
    (hnext : weather_app_data_point_delta s.data.data_point
      (if direction = ScrollDirectionUp then -1 else 1) = next)
    (hdp : next.deref = some dp) :
    (∃ s', ask_for_scroll scheduler s direction = some s' ∧ s'.data.data_point = next ∧
      s'.data.previous_animation = some (spec_page_transition
        (get_animated_numbers s.data.view_model) s.trace direction next dp) ∧
      s'.data.view_model =
        (scheduler.animation_schedule
          (spec_page_transition (get_animated_numbers s.data.view_model) s.trace direction
            next dp)
          (scheduler.animation_unschedule s.data.previous_animation
            ⟨s.data.view_model, (weather_app_resources_get_icon s.trace dp.icon).2⟩)).model) ∧
    (∃ s', ask_for_scroll idle_scheduler s direction = some s' ∧ s'.data.data_point = next ∧
      s'.data.view_model = s.data.view_model) ∧
    (∃ out_text in_text bg icon numbers,
      spec_page_transition (get_animated_numbers s.data.view_model) s.trace direction next dp =
        Animation.spawn
          [Animation.sequence
            [Animation.spawn out_text
                { started := none, stopped := some .after_scroll_swap_text,
                  context := .data_point next },
              in_text] no_handlers,
            bg, icon, numbers] no_handlers) ∧
    (∀ (vm vm' : ViewModelState) (animation : Animation) (n : Int),
      animation_update vm animation n = some vm' →
        vm'.model.city = vm.model.city ∧ vm'.model.description = vm.model.description ∧
          vm'.model.pagination = vm.model.pagination) ∧
    (∀ (vm : ViewModelState) (layer : LayerId) (dy n : Int),
      animation_update vm (spec_scroll_out layer dy) n = some vm) ∧
    (∀ (vm vm' : ViewModelState) (animation : Animation) (finished : Bool)
        (context : DataPointRef) (icon : Option GDrawCommandImage),
      (bg_colors_animation_started vm animation context = some vm' →
        vm'.model.city = vm.model.city ∧ vm'.model.description = vm.model.description ∧
          vm'.model.pagination = vm.model.pagination) ∧
      (bg_colors_animation_stopped vm animation finished context = some vm' →
        vm'.model.city = vm.model.city ∧ vm'.model.description = vm.model.description ∧
          vm'.model.pagination = vm.model.pagination) ∧
      ((replace_icon_stop_handler vm animation finished icon).model.city = vm.model.city ∧
        (replace_icon_stop_handler vm animation finished icon).model.description =
          vm.model.description ∧
        (replace_icon_stop_handler vm animation finished icon).model.pagination =
          vm.model.pagination)) ∧
    (∃ k : Int, 0 ≤ k ∧ k < weather_app_num_data_points ∧
      next = weather_app_data_point_at k ∧
      ∀ (vm : ViewModelState) (animation : Animation) (finished : Bool),
        ∃ vm', after_scroll_swap_text vm animation finished next = some vm' ∧
          vm'.model.city = some dp.city ∧ vm'.model.description = some dp.description ∧
          vm'.model.pagination.idx = wrap16 (1 + weather_app_index_of_data_point next) ∧
          vm'.model.pagination.num = 4 ∧
          vm'.model.pagination.idx = k + 1 ∧
          vm'.model.pagination.text = fmt_d (k + 1) ++ cstr "/" ++ cstr "4" ∧
          vm'.model.pagination =
            { idx := k + 1, num := 4, text := fmt_d (k + 1) ++ cstr "/" ++ cstr "4" }) := by
  have hne : next ≠ DataPointRef.null := by
    intro h
    rw [h] at hdp
    exact absurd hdp (by simp [DataPointRef.deref])
  obtain ⟨k, hk0, hk1, hk⟩ := weather_app_data_point_delta_resolves _ _ next hnext hne
  refine ⟨?_, ?_, ?_, animation_update_keeps_text, fun _ _ _ _ => rfl,
    other_handlers_keep_text, k, hk0, hk1, hk, fun vm animation finished => ?_⟩
  · obtain ⟨s1, h1, h2, h3⟩ := ask_for_scroll_of_target scheduler s direction next dp hnext hdp
    obtain ⟨s2, g1, _, g3⟩ := ask_for_scroll_view_model scheduler s direction next dp hnext hdp
    rw [h1, Option.some.injEq] at g1
    subst g1
    exact ⟨s1, h1, h2, h3, g3⟩
  · obtain ⟨s2, g1, g2, g3⟩ :=
      ask_for_scroll_view_model idle_scheduler s direction next dp hnext hdp
    exact ⟨s2, g1, g2, g3⟩
  · cases direction <;> exact ⟨_, _, _, _, _, rfl⟩
  · obtain ⟨vm', hv, hm⟩ :=
      weather_app_view_model_fill_strings_and_pagination_model vm next dp hdp
    obtain ⟨p1, p2, p3⟩ := store_pagination hk0 hk1
    have hidx : wrap16 (1 + weather_app_index_of_data_point next) = k + 1 := by
      rw [hk]
      exact p1
    have hpag : vm'.model.pagination =
        { idx := k + 1, num := 4, text := fmt_d (k + 1) ++ cstr "/" ++ cstr "4" } := by
      rw [hm]
      simp only [hidx, p2, p3]
    refine ⟨vm', hv, by rw [hm], by rw [hm], ?_, ?_, ?_, ?_, hpag⟩
    · rw [hpag, hidx]
    · rw [hpag]
    · rw [hpag]
    · rw [hpag]

theorem C15_text_swap_witness :
    (∃ s', ask_for_scroll idle_scheduler ⟨⟨weather_app_data_point_at 0, memset_0, none⟩, []⟩
        ScrollDirectionDown = some s' ∧
      s'.data.data_point = weather_app_data_point_at 1 ∧
      s'.data.previous_animation = some (spec_page_transition
        (get_animated_numbers memset_0) [] ScrollDirectionDown (weather_app_data_point_at 1)
        ⟨"LOS ANGELES", "Clear throughout the day.", WEATHER_APP_ICON_SUNNY_DAY, 100, 100, 80⟩) ∧
      s'.data.view_model =
        (idle_scheduler.animation_schedule
          (spec_page_transition (get_animated_numbers memset_0) [] ScrollDirectionDown
            (weather_app_data_point_at 1)
            ⟨"LOS ANGELES", "Clear throughout the day.", WEATHER_APP_ICON_SUNNY_DAY,
              100, 100, 80⟩)
          (idle_scheduler.animation_unschedule none
            ⟨memset_0, (weather_app_resources_get_icon [] WEATHER_APP_ICON_SUNNY_DAY).2⟩)).model) ∧
    (∃ s', ask_for_scroll idle_scheduler ⟨⟨weather_app_data_point_at 0, memset_0, none⟩, []⟩
        ScrollDirectionDown = some s' ∧
      s'.data.data_point = weather_app_data_point_at 1 ∧
      s'.data.view_model = memset_0) ∧
    (∃ out_text in_text bg icon numbers,
      spec_page_transition (get_animated_numbers memset_0) [] ScrollDirectionDown
          (weather_app_data_point_at 1)
          ⟨"LOS ANGELES", "Clear throughout the day.", WEATHER_APP_ICON_SUNNY_DAY,
            100, 100, 80⟩ =
        Animation.spawn
          [Animation.sequence
            [Animation.spawn out_text
                { started := none, stopped := some .after_scroll_swap_text,
                  context := .data_point (weather_app_data_point_at 1) },
              in_text] no_handlers,
            bg, icon, numbers] no_handlers) ∧
    (∀ (vm vm' : ViewModelState) (animation : Animation) (n : Int),
      animation_update vm animation n = some vm' →
        vm'.model.city = vm.model.city ∧ vm'.model.description = vm.model.description ∧
          vm'.model.pagination = vm.model.pagination) ∧
    (∀ (vm : ViewModelState) (layer : LayerId) (dy n : Int),
      animation_update vm (spec_scroll_out layer dy) n = some vm) ∧
    (∀ (vm vm' : ViewModelState) (animation : Animation) (finished : Bool)
        (context : DataPointRef) (icon : Option GDrawCommandImage),
      (bg_colors_animation_started vm animation context = some vm' →
        vm'.model.city = vm.model.city ∧ vm'.model.description = vm.model.description ∧
          vm'.model.pagination = vm.model.pagination) ∧
      (bg_colors_animation_stopped vm animation finished context = some vm' →
        vm'.model.city = vm.model.city ∧ vm'.model.description = vm.model.description ∧
          vm'.model.pagination = vm.model.pagination) ∧
      ((replace_icon_stop_handler vm animation finished icon).model.city = vm.model.city ∧
        (replace_icon_stop_handler vm animation finished icon).model.description =
          vm.model.description ∧
        (replace_icon_stop_handler vm animation finished icon).model.pagination =
          vm.model.pagination)) ∧
    (∃ k : Int, 0 ≤ k ∧ k < weather_app_num_data_points ∧
      weather_app_data_point_at 1 = weather_app_data_point_at k ∧
      ∀ (vm : ViewModelState) (animation : Animation) (finished : Bool),
        ∃ vm', after_scroll_swap_text vm animation finished (weather_app_data_point_at 1) =
            some vm' ∧
          vm'.model.city = some "LOS ANGELES" ∧
          vm'.model.description = some "Clear throughout the day." ∧
          vm'.model.pagination.idx =
            wrap16 (1 + weather_app_index_of_data_point (weather_app_data_point_at 1)) ∧
          vm'.model.pagination.num = 4 ∧
          vm'.model.pagination.idx = k + 1 ∧
          vm'.model.pagination.text = fmt_d (k + 1) ++ cstr "/" ++ cstr "4" ∧
          vm'.model.pagination =
            { idx := k + 1, num := 4, text := fmt_d (k + 1) ++ cstr "/" ++ cstr "4" }) :=
  C15_text_swap idle_scheduler ⟨⟨weather_app_data_point_at 0, memset_0, none⟩, []⟩
    ScrollDirectionDown (weather_app_data_point_at 1)
    ⟨"LOS ANGELES", "Clear throughout the day.", WEATHER_APP_ICON_SUNNY_DAY, 100, 100, 80⟩
    (by decide) rfl


/-! ## Paging stays in the store -/

theorem clamped_step_range (i : Int) (direction : ScrollDirection) :
    0 ≤ clamped_step i direction ∧ clamped_step i direction ≤ 3 := by
  cases direction <;> simp only [clamped_step] <;> omega

/-- One page request moves the index of the current data point by the clamped
step. -/
theorem ask_for_scroll_index (scheduler : AnimationScheduler) (s : AppState) (i : Int)
    (direction : ScrollDirection) (h0 : 0 ≤ i) (h1 : i < weather_app_num_data_points)
    (hcur : s.data.data_point = weather_app_data_point_at i) :
    ∃ s', ask_for_scroll scheduler s direction = some s' ∧
      s'.data.data_point = weather_app_data_point_at (clamped_step i direction) := by
  have key : (weather_app_data_point_delta (weather_app_data_point_at i)
        (if direction = ScrollDirectionUp then -1 else 1) = DataPointRef.null ∧
        clamped_step i direction = i) ∨
      (weather_app_data_point_delta (weather_app_data_point_at i)
        (if direction = ScrollDirectionUp then -1 else 1) =
          weather_app_data_point_at (clamped_step i direction) ∧
        ∃ dp, (weather_app_data_point_at (clamped_step i direction)).deref = some dp) := by
    rw [weather_app_num_data_points_eq] at h1
    interval_cases i <;> cases direction <;>
      first
        | exact Or.inl (by decide)
        | exact Or.inr ⟨by decide, _, rfl⟩
  rcases key with ⟨hn, hc⟩ | ⟨hn, dp, hdp⟩
  · obtain ⟨s', hs, hd, _⟩ :=
      ask_for_scroll_of_no_target scheduler s direction (by rw [hcur]; exact hn)
    exact ⟨s', hs, by rw [hd, hcur, hc]⟩
  · obtain ⟨s', hs, hd, _⟩ :=
      ask_for_scroll_of_target scheduler s direction _ dp (by rw [hcur]; exact hn) hdp
    exact ⟨s', hs, hd⟩

/-- A sequence of page requests moves the index by the clamped steps, in
order. -/
theorem page_requests_index (scheduler : AnimationScheduler) (requests : List ScrollDirection) :
    ∀ (s : AppState) (i : Int), 0 ≤ i → i ≤ 3 →
      s.data.data_point = weather_app_data_point_at i →
      ∃ s', page_requests scheduler s requests = some s' ∧
        s'.data.data_point = weather_app_data_point_at (requests.foldl clamped_step i) ∧
        0 ≤ requests.foldl clamped_step i ∧ requests.foldl clamped_step i ≤ 3 := by
  induction requests with
  | nil =>
    intro s i h0 h1 hcur
    exact ⟨s, rfl, hcur, h0, h1⟩
  | cons direction rest ih =>
    intro s i h0 h1 hcur
    obtain ⟨s1, hs1, hd1⟩ := ask_for_scroll_index scheduler s i direction h0
      (by rw [weather_app_num_data_points_eq]; omega) hcur
    obtain ⟨r0, r1⟩ := clamped_step_range i direction
    obtain ⟨s', hs', hd', hr⟩ := ih s1 (clamped_step i direction) r0 r1 hd1
    refine ⟨s', ?_, hd', hr⟩
    cases direction <;>
      simp only [page_requests, up_click_handler, down_click_handler, hs1, Option.bind_eq_bind,
        Option.some_bind, hs']

/-- The state built by `init`: the first record is current. -/
theorem init_data_point :
    ∃ s0, init = some s0 ∧ s0.data.data_point = weather_app_data_point_at 0 := by
  obtain ⟨dp, hdp, _⟩ := deref_weather_app_data_point_at (i := 0) (by decide) (by decide)
  obtain ⟨vm, hvm, _⟩ := weather_app_view_model_fill_all_model ⟨memset_0, []⟩
    (weather_app_data_point_at 0) dp hdp
  refine ⟨⟨⟨weather_app_data_point_at 0, vm.model, none⟩, vm.trace⟩, ?_, rfl⟩
  have e : init = (weather_app_view_model_fill_all ⟨memset_0, []⟩
      (weather_app_data_point_at 0)).bind (fun vm =>
        some ⟨⟨weather_app_data_point_at 0, vm.model, none⟩, vm.trace⟩) := rfl
  rw [e, hvm]
  rfl

/-- C16: starting from the state built by `init` (current data point `at(0)`),
after every finite sequence of Up/Down page requests handled by
`ask_for_scroll`, whatever the scheduler does to the view model, every request
returns and the current data point is a record of the store, never nothing: it
is `at(k)` and has index `k`, where `k` in `[0, 3]` is the result of applying
each request's `-1`/`+1` step clamped to `[0, 3]`, in order. -/
theorem C16_paging_stays_in_store (scheduler : AnimationScheduler)
    (requests : List ScrollDirection) :
    ∃ s0 s', init = some s0 ∧ s0.data.data_point = weather_app_data_point_at 0 ∧
      page_requests scheduler s0 requests = some s' ∧
      s'.data.data_point = weather_app_data_point_at (requests.foldl clamped_step 0) ∧
      0 ≤ requests.foldl clamped_step 0 ∧ requests.foldl clamped_step 0 ≤ 3 ∧
      s'.data.data_point ≠ DataPointRef.null ∧
      weather_app_index_of_data_point s'.data.data_point = requests.foldl clamped_step 0 ∧
      ∃ dp, s'.data.data_point.deref = some dp := by
  obtain ⟨s0, hs0, hd0⟩ := init_data_point
  obtain ⟨s', hs', hd', hr0, hr1⟩ :=
    page_requests_index scheduler requests s0 0 (le_refl 0) (by decide) hd0
  have hlt : requests.foldl clamped_step 0 < weather_app_num_data_points := by
    rw [weather_app_num_data_points_eq]
    omega
  obtain ⟨dp, hdp, _⟩ := deref_weather_app_data_point_at hr0 hlt
  refine ⟨s0, s', hs0, hd0, hs', hd', hr0, hr1, ?_, ?_, dp, by rw [hd']; exact hdp⟩
  · rw [hd']
    intro h
    rw [weather_app_data_point_at_eq_null_iff] at h
    omega
  · rw [hd']
    exact weather_app_index_of_data_point_at hr0 hlt

end Cards
